import Mathlib

set_option maxRecDepth 8000
set_option maxHeartbeats 1000000

/-!
Verification of the Lifegate WhatsApp telemedicine platform.

Shallow embedding of the python source:
  * `apps/assessments/validator.py`  (AssessmentModificationValidator)
  * `apps/clinician/whatsapp_handler.py` (ClinicianWhatsAppHandler)
  * `services/message_handler.py` (MessageHandler)
  * `services/workflow_service.py`, `apps/subscriptions/views.py`

Python `str` is embedded as `String`, JSON content blocks as typed records
wrapped in `Option` (Python `None`/missing dict is `none`), machine time as
`Nat` seconds, Django rows as Lean lists threaded through explicit state.
Purely presentational strings sent to the *clinician* are modelled as a
counter of sends (their wording is out of the property scope); everything
sent to the *patient* is kept verbatim.
-/

/-! ## Python string primitives

Python strings are sequences of characters, so every operation below works
on `String.data : List Char`; the built-in byte-position `String` functions
are not used. -/

/-- Python `needle in hay` (substring containment). -/
def listInfixOf (needle : List Char) : List Char → Bool
  | [] => needle.isEmpty
  | c :: t => needle.isPrefixOf (c :: t) || listInfixOf needle t

/-- Python `needle in hay` for strings. -/
def strContains (hay needle : String) : Bool :=
  listInfixOf needle.data hay.data

/-- Python `s.lower()` (ASCII case folding). -/
def strLower (s : String) : String :=
  String.mk (s.data.map Char.toLower)

/-- Python `s.strip()` / `s.lstrip()` on char lists. -/
def trimLeftL (l : List Char) : List Char :=
  l.dropWhile Char.isWhitespace

/-- Python `s.strip()`. -/
def strTrim (s : String) : String :=
  String.mk ((trimLeftL (trimLeftL s.data).reverse).reverse)

/-- Python `s.startswith(p)`. -/
def strStartsWith (s p : String) : Bool :=
  p.data.isPrefixOf s.data

/-- Split a char list at every char satisfying `p` (keeping empty parts,
like Python `split(sep)` for an explicit separator). -/
def splitPredL (p : Char → Bool) : List Char → List (List Char)
  | [] => [[]]
  | c :: t =>
      let r := splitPredL p t
      if p c then [] :: r
      else
        match r with
        | [] => [[c]]
        | h :: t2 => (c :: h) :: t2

/-- Python `s.split(sep)` for a one-char separator. -/
def strSplitOnChar (sep : Char) (s : String) : List String :=
  (splitPredL (fun c => c = sep) s.data).map String.mk

/-- Python `s.split()` (split on whitespace runs, dropping empty parts). -/
def pySplitWs (s : String) : List String :=
  ((splitPredL Char.isWhitespace s.data).filter (fun p => ¬ p.isEmpty)).map String.mk

/-- Python `s.replace(pat, rep)` on char lists (all occurrences, left to
right; a nonzero `skip` means that many chars of an already-replaced match
remain to be dropped; `pat` is nonempty at every call site). -/
def replaceSkip (pat rep : List Char) (skip : Nat) : List Char → List Char
  | [] => []
  | c :: t =>
      match skip with
      | Nat.succ k => replaceSkip pat rep k t
      | 0 =>
          if ¬ pat.isEmpty ∧ pat.isPrefixOf (c :: t) then
            rep ++ replaceSkip pat rep (pat.length - 1) t
          else c :: replaceSkip pat rep 0 t

/-- Python `s.replace(pat, rep)` for strings. -/
def strReplace (s pat rep : String) : String :=
  String.mk (replaceSkip pat.data rep.data 0 s.data)

/-- Python `sep.join(parts)`. -/
def strJoin (sep : String) : List String → String
  | [] => ""
  | [x] => x
  | x :: t => x ++ sep ++ strJoin sep t

/-- Value of a digit list read in base 10. -/
def digitsVal (l : List Char) : Nat :=
  l.foldl (fun acc c => acc * 10 + (c.toNat - 48)) 0

/-- Parse a nonempty all-digit char list. -/
def natOfDigits? (l : List Char) : Option Nat :=
  if ¬ l.isEmpty ∧ l.all Char.isDigit then some (digitsVal l) else none

/-- Python `s.split(maxsplit=1)` on whitespace: first token and the rest. -/
def pySplitMax1 (s : String) : List String :=
  match pySplitWs s with
  | [] => []
  | tok :: _ =>
      let afterTok := String.mk (trimLeftL ((strTrim s).data.drop tok.length))
      if afterTok.isEmpty then [tok] else [tok, afterTok]

/-- Python `float(s)` for strings made of digits and dots:
`some` of the value when `s` is a valid decimal literal, `none` when
`float` would raise (empty, lone dot, several dots). -/
def pyFloat? (s : String) : Option ℚ :=
  match strSplitOnChar '.' s with
  | [intPart] =>
      (natOfDigits? intPart.data).map (fun n => (n : ℚ))
  | [intPart, fracPart] =>
      if intPart.isEmpty ∧ fracPart.isEmpty then none
      else
        let iv : Option ℚ :=
          if intPart.isEmpty then some 0 else (natOfDigits? intPart.data).map (fun n => (n : ℚ))
        let fv : Option ℚ :=
          if fracPart.isEmpty then some 0
          else (natOfDigits? fracPart.data).map (fun n => (n : ℚ) / ((10 : ℚ) ^ fracPart.length))
        match iv, fv with
        | some a, some b => some (a + b)
        | _, _ => none
  | _ => none

/-- Python `int(s)`: optional sign after stripping whitespace. -/
def pyInt? (s : String) : Option Int :=
  let t := strTrim s
  if strStartsWith t "-" then (natOfDigits? (t.data.drop 1)).map (fun n => -(n : Int))
  else if strStartsWith t "+" then (natOfDigits? (t.data.drop 1)).map (fun n => (n : Int))
  else (natOfDigits? t.data).map (fun n => (n : Int))

/-- Python `max(list)` over parsed floats; `none` when the list is empty or a
`float()` call raises (mirrors the enclosing `try`). -/
def pyMaxFloats? (ds : List String) : Option ℚ :=
  match ds with
  | [] => none
  | d :: t =>
      match pyFloat? d, pyMaxFloats? t with
      | some v, none => if t.isEmpty then some v else none
      | some v, some m => some (max v m)
      | none, _ => none

/-! ## Content model (`apps/assessments/models.py` JSON blocks) -/

/-- One entry of a `medications` JSON list: either a dict
`{name, dosage, frequency}` or a bare string. -/
inductive MedItem
  | dict (name dosage frequency : String)
  | str (s : String)
deriving DecidableEq, Repr

/-- `med.get('name','').lower()` for dicts, `str(m).lower()` otherwise. -/
def MedItem.nameLower : MedItem → String
  | .dict n _ _ => strLower n
  | .str s => strLower s

/-- `{'medications': [...]}` block. -/
structure MedsBlock where
  medications : List MedItem
deriving DecidableEq, Repr

/-- `{'lifestyle_changes': [...]}` block. -/
structure RecsBlock where
  lifestyle_changes : List String
deriving DecidableEq, Repr

/-- `{'when_to_seek_help': [...]}` block. -/
structure MonBlock where
  when_to_seek_help : List String
deriving DecidableEq, Repr

/-- `key_observations` block. -/
structure ObsBlock where
  likely_condition : String
  notes : String
deriving DecidableEq, Repr

/-- `symptoms_overview` block. -/
structure SymBlock where
  primary_symptoms : List String
  severity_rating : Nat
  duration : String
deriving DecidableEq, Repr

/-- The `AIAssessment` content used by the validator, formatter and
workflow (each field is `none` when the JSON field is null/missing). -/
structure Assessment where
  symptoms_overview : Option SymBlock
  key_observations : Option ObsBlock
  preliminary_recommendations : Option RecsBlock
  otc_suggestions : Option MedsBlock
  monitoring_advice : Option MonBlock
deriving DecidableEq, Repr

/-! ## Validator (`apps/assessments/validator.py`) -/

/-- Issue severities used inside `issues` lists. -/
inductive Severity
  | LOW | MEDIUM | HIGH | CRITICAL
deriving DecidableEq, Repr

instance : Fintype Severity :=
  ⟨⟨{.LOW, .MEDIUM, .HIGH, .CRITICAL}, by decide⟩, by intro x; cases x <;> decide⟩

/-- Overall severity of a validation run (`'OK'` when no issue). -/
inductive OverallSeverity
  | OK | LOW | MEDIUM | HIGH | CRITICAL
deriving DecidableEq, Repr

instance : Fintype OverallSeverity :=
  ⟨⟨{.OK, .LOW, .MEDIUM, .HIGH, .CRITICAL}, by decide⟩, by intro x; cases x <;> decide⟩

/-- One element of the validator's `issues` list. -/
structure Issue where
  itype : String
  severity : Severity
  message : String
  suggestion : String
deriving DecidableEq, Repr

/-- `safe_dosages` table of `_check_dosage_safety`. -/
def safe_dosages : List (String × List String) :=
  [("aspirin", ["100mg", "300mg", "500mg", "1000mg", "1g"]),
   ("ibuprofen", ["200mg", "400mg", "600mg", "800mg"]),
   ("paracetamol", ["250mg", "500mg", "650mg", "1000mg", "1g"]),
   ("acetaminophen", ["250mg", "500mg", "650mg", "1000mg", "1g"]),
   ("diphenhydramine", ["25mg", "50mg"]),
   ("cetirizine", ["5mg", "10mg"]),
   ("loratadine", ["5mg", "10mg"])]

/-- `dose.replace('mg', '').replace('g', '')`. -/
def stripUnits (dose : String) : String :=
  strReplace (strReplace dose "mg" "") "g" ""

/-- `AssessmentModificationValidator._check_dosage_safety`. -/
def check_dosage_safety (medication_name dosage : String) : List Issue :=
  let med_name := strTrim (strLower medication_name)
  let dosage_lower := strLower dosage
  match safe_dosages.lookup med_name with
  | none => []
  | some safe_doses =>
      match pySplitWs dosage_lower with
      | [] => []
      | tok :: _ =>
          let dosage_amount := String.mk (tok.data.filter (fun c => c.isDigit || c = '.'))
          if dosage_amount.isEmpty then []
          else
            let is_safe := safe_doses.any (fun dose => strContains dosage_lower (stripUnits dose))
            if is_safe then []
            else
              match pyFloat? dosage_amount with
              | none => []
              | some dose_num =>
                  match pyMaxFloats? (safe_doses.map stripUnits) with
                  | none => []
                  | some max_safe =>
                      if dose_num > max_safe * (3 / 2) then
                        [{ itype := "medication_safety", severity := .HIGH,
                           message := med_name ++ " dosage of " ++ dosage ++ " may be too high",
                           suggestion := "Recommended: " ++ safe_doses.getLastD "" ++ ", frequency: 2-3 times daily" }]
                      else []

/-- `safe_frequencies` table of `_check_frequency_safety`. -/
def safe_frequencies : List (String × List String) :=
  [("aspirin", ["2-3 times daily", "three times daily", "thrice daily"]),
   ("ibuprofen", ["2-3 times daily", "three times daily", "3-4 times daily"]),
   ("paracetamol", ["3-4 times daily", "every 4-6 hours"]),
   ("acetaminophen", ["3-4 times daily", "every 4-6 hours"])]

/-- `AssessmentModificationValidator._check_frequency_safety`. -/
def check_frequency_safety (medication_name frequency : String) : List Issue :=
  let med_name := strTrim (strLower medication_name)
  let freq_lower := strLower frequency
  match safe_frequencies.lookup med_name with
  | none => []
  | some safe_freqs =>
      let dangerous_patterns := ["every hour", "hourly", "10 times", "12 times", "every 2 hours"]
      if dangerous_patterns.any (fun pattern => strContains freq_lower pattern) then
        [{ itype := "medication_safety", severity := .CRITICAL,
           message := "Frequency '" ++ frequency ++ "' for " ++ med_name ++ " is dangerously high",
           suggestion := "Use: " ++ safe_freqs.headD "" }]
      else []

/-- `dangerous_interactions` table of `_check_drug_interactions`. -/
def dangerous_interactions : List (String × List String) :=
  [("aspirin", ["ibuprofen", "warfarin"]),
   ("ibuprofen", ["aspirin", "naproxen"]),
   ("paracetamol", ["alcohol"]),
   ("acetaminophen", ["alcohol"])]

/-- `AssessmentModificationValidator._check_drug_interactions`. -/
def check_drug_interactions (medication_name : String) (all_medications : List MedItem) : List Issue :=
  let med_name := strTrim (strLower medication_name)
  match dangerous_interactions.lookup med_name with
  | none => []
  | some ds =>
      let other_meds := (all_medications.filter
        (fun m => match m with
          | .dict n _ _ => strLower n ≠ med_name
          | .str _ => false)).map MedItem.nameLower
      ds.flatMap (fun dangerous_drug =>
        if other_meds.any (fun om => strContains om dangerous_drug) then
          [{ itype := "medication_safety", severity := .HIGH,
             message := "Potential interaction: " ++ med_name ++ " + " ++ dangerous_drug,
             suggestion := "Remove one of the conflicting medications or space them out" }]
        else [])

/-- `condition_med_map` table of `_check_med_appropriateness`. -/
def condition_med_map : List (String × List String) :=
  [("headache", ["aspirin", "ibuprofen", "paracetamol", "acetaminophen"]),
   ("fever", ["aspirin", "ibuprofen", "paracetamol", "acetaminophen"]),
   ("pain", ["aspirin", "ibuprofen", "paracetamol", "acetaminophen"]),
   ("cold", ["paracetamol", "ibuprofen", "decongestant"]),
   ("allergy", ["cetirizine", "loratadine", "antihistamine"]),
   ("cough", ["cough syrup", "dextromethorphan"])]

/-- `AssessmentModificationValidator._check_med_appropriateness`. -/
def check_med_appropriateness (medication_name condition : String) : List Issue :=
  let med_name := strTrim (strLower medication_name)
  let condition_lower := strLower condition
  let appropriate_meds := condition_med_map.flatMap
    (fun p => if strContains condition_lower p.1 then p.2 else [])
  if ¬ appropriate_meds.isEmpty then
    if ¬ appropriate_meds.any (fun med => strContains med_name med) then
      [{ itype := "consistency", severity := .MEDIUM,
         message := "'" ++ med_name ++ "' may not be ideal for " ++ condition,
         suggestion := "Consider: " ++ strJoin ", " (appropriate_meds.take 2) }]
    else []
  else []

/-- `AssessmentModificationValidator._get_safe_otc_drugs`. -/
def get_safe_otc_drugs : List String :=
  ["aspirin", "ibuprofen", "paracetamol", "acetaminophen",
   "cetirizine", "loratadine", "antihistamine", "decongestant",
   "cough syrup", "dextromethorphan", "diphenhydramine",
   "antacid", "omeprazole", "ranitidine"]

/-- Checks run per medication inside the loop of `_validate_medications`
(dict entries only; non-dict entries are skipped by the source's
`isinstance(med, dict)` guard). -/
def validate_one_medication (original_meds : List MedItem) (condition : String)
    (medications : List MedItem) (med : MedItem) : List Issue :=
  match med with
  | .str _ => []
  | .dict n d f =>
      let med_name := strLower n
      let dosage := strLower d
      let frequency := strLower f
      let dosage_issues := if ¬ dosage.isEmpty then check_dosage_safety med_name dosage else []
      let freq_issues := if ¬ frequency.isEmpty then check_frequency_safety med_name frequency else []
      let drug_issues := check_drug_interactions med_name medications
      let appropriateness_issues :=
        if ¬ condition.isEmpty then check_med_appropriateness med_name condition else []
      let original_med_names := original_meds.map MedItem.nameLower
      let new_issue :=
        if ¬ original_med_names.contains med_name ∧ ¬ get_safe_otc_drugs.contains med_name then
          [{ itype := "medication_safety", severity := .MEDIUM,
             message := "'" ++ med_name ++ "' is a new medication not in original assessment",
             suggestion := "Verify '" ++ med_name ++ "' is appropriate for "
               ++ (if condition.isEmpty then "patient condition" else condition) }]
        else []
      dosage_issues ++ freq_issues ++ drug_issues ++ appropriateness_issues ++ new_issue

/-- `AssessmentModificationValidator._validate_medications`. -/
def validate_medications (assessment : Assessment) (modified_meds : Option MedsBlock) : List Issue :=
  match modified_meds with
  | none => []
  | some block =>
      let medications := block.medications
      if medications.isEmpty then []
      else
        let original_meds := match assessment.otc_suggestions with
          | some b => b.medications
          | none => []
        let condition := match assessment.key_observations with
          | some o => o.likely_condition
          | none => ""
        medications.flatMap (validate_one_medication original_meds condition medications)

/-- `conflicting_pairs` table of `_validate_recommendations`. -/
def conflicting_pairs : List (String × String) :=
  [("stay in bed", "exercise"),
   ("avoid all food", "eat well"),
   ("rest", "strenuous activity")]

/-- Per-recommendation quality checks inside `_validate_recommendations`. -/
def validate_one_recommendation (recommendations : List String) (rec : String) : List Issue :=
  let rec_lower := strLower rec
  let vague_words := ["do something", "try to", "maybe", "possibly", "perhaps"]
  let vague_issue :=
    if vague_words.any (fun vague => strContains rec_lower vague) then
      [{ itype := "quality", severity := .LOW,
         message := "Recommendation is vague: '" ++ rec ++ "'",
         suggestion := "Be specific with actions. E.g., 'Take 2-3L water daily' instead of 'Stay hydrated'" }]
    else []
  let conflict_issues := conflicting_pairs.flatMap (fun p =>
    if strContains rec_lower p.1 then
      if recommendations.any (fun r => strContains (strLower r) p.2) then
        [{ itype := "consistency", severity := .HIGH,
           message := "Contradictory recommendations: '" ++ rec ++ "' conflicts with other advice",
           suggestion := "Remove or clarify conflicting advice" }]
      else []
    else [])
  vague_issue ++ conflict_issues

/-- `AssessmentModificationValidator._validate_recommendations`. -/
def validate_recommendations (assessment : Assessment) (modified_recs : Option RecsBlock) : List Issue :=
  match modified_recs with
  | none => []
  | some block =>
      let recommendations := block.lifestyle_changes
      let empty_issue :=
        if recommendations.isEmpty then
          let condition := match assessment.key_observations with
            | some o => o.likely_condition
            | none => ""
          [{ itype := "completeness", severity := .MEDIUM,
             message := "No lifestyle recommendations provided",
             suggestion := "Add at least 2-3 recommendations for "
               ++ (if condition.isEmpty then "patient recovery" else condition) }]
        else []
      empty_issue ++ recommendations.flatMap (validate_one_recommendation recommendations)

/-- Per-warning checks inside `_validate_monitoring` (`idx` is 1-based). -/
def validate_one_warning (idx : Nat) (warning : String) : List Issue :=
  let warning_lower := strLower warning
  let brief_issue :=
    if warning.length < 10 then
      [{ itype := "quality", severity := .MEDIUM,
         message := "Warning is too brief: '" ++ warning ++ "'",
         suggestion := "Be specific: 'Fever above 39C lasting 3+ days' instead of 'High fever'" }]
    else []
  let critical_keywords := ["severe", "difficulty breathing", "chest pain", "unconscious", "emergency"]
  let has_critical := critical_keywords.any (fun keyword => strContains warning_lower keyword)
  let first_issue :=
    if ¬ has_critical ∧ idx = 1 then
      [{ itype := "completeness", severity := .MEDIUM,
         message := "First warning sign should be a critical symptom",
         suggestion := "Start with most urgent warning: e.g., 'Difficulty breathing or chest pain'" }]
    else []
  brief_issue ++ first_issue

/-- `AssessmentModificationValidator._validate_monitoring`. -/
def validate_monitoring (_assessment : Assessment) (modified_monitoring : Option MonBlock) : List Issue :=
  match modified_monitoring with
  | none => []
  | some block =>
      let when_to_seek := block.when_to_seek_help
      let empty_issue :=
        if when_to_seek.isEmpty then
          [{ itype := "completeness", severity := .HIGH,
             message := "No emergency warning signs provided",
             suggestion := "Add at least 2-3 critical warning signs to seek immediate help" }]
        else []
      empty_issue ++
        (when_to_seek.zip (List.range' 1 when_to_seek.length)).flatMap
          (fun p => validate_one_warning p.2 p.1)

/-- `AssessmentModificationValidator._validate_notes`. -/
def validate_notes (notes : String) : List Issue :=
  if (strTrim notes).isEmpty then []
  else
    let unprofessional_words := ["weird", "lol", "dunno", "gonna", "wanna", "aint"]
    let informal_issue :=
      if unprofessional_words.any (fun word => strContains (strLower notes) word) then
        [{ itype := "quality", severity := .LOW,
           message := "Note contains informal language",
           suggestion := "Use professional medical language. E.g., 'not recommended' instead of 'aint'" }]
      else []
    let length_issue :=
      if notes.length > 500 then
        [{ itype := "quality", severity := .LOW,
           message := "Note is quite long, may overwhelm patient",
           suggestion := "Keep notes brief and actionable. Aim for 100-300 characters" }]
      else []
    informal_issue ++ length_issue

/-- Content fields of a `ModificationSession` row read by the validator. -/
structure ModContent where
  modified_otc_suggestions : Option MedsBlock
  modified_recommendations : Option RecsBlock
  modified_monitoring_advice : Option MonBlock
  clinician_notes : String
deriving DecidableEq, Repr

/-- `AssessmentModificationValidator._validate_overall_consistency`. -/
def validate_overall_consistency (assessment : Assessment) (ms : ModContent) : List Issue :=
  let meds := match ms.modified_otc_suggestions with
    | some b => b.medications
    | none => []
  let recs := match ms.modified_recommendations with
    | some b => b.lifestyle_changes
    | none => []
  let warnings := match ms.modified_monitoring_advice with
    | some b => b.when_to_seek_help
    | none => []
  let sections_filled : List Bool := [¬ meds.isEmpty, ¬ recs.isEmpty, ¬ warnings.isEmpty]
  let empty_sections_issue :=
    if (sections_filled.filter id).length < 2 then
      [{ itype := "completeness", severity := .MEDIUM,
         message := "Some sections are empty (medications, recommendations, or warnings)",
         suggestion := "Ensure all sections have appropriate content" }]
    else []
  let original_meds := match assessment.otc_suggestions with
    | some b => b.medications
    | none => []
  let unchanged_issue :=
    if meds.length = original_meds.length ∧
        (meds.filter (fun m => match m with | .dict _ _ _ => true | .str _ => false)).all
          (fun m => original_meds.contains m) then
      let original_recs := match assessment.preliminary_recommendations with
        | some b => b.lifestyle_changes
        | none => []
      if recs.length = original_recs.length ∧ recs.all (fun r => original_recs.contains r) then
        [{ itype := "quality", severity := .LOW,
           message := "No modifications detected - assessment is identical to original",
           suggestion := "Either modify content or proceed without changes" }]
      else []
    else []
  empty_sections_issue ++ unchanged_issue

/-- `AssessmentModificationValidator._determine_severity`. -/
def determine_severity (issues : List Issue) : OverallSeverity :=
  if issues.isEmpty then .OK
  else
    let severities := issues.map Issue.severity
    if severities.contains .CRITICAL then .CRITICAL
    else if severities.contains .HIGH then .HIGH
    else if severities.contains .MEDIUM then .MEDIUM
    else if severities.contains .LOW then .LOW
    else .OK

/-- `AssessmentModificationValidator._get_recommendation` (the `issues`
parameter is accepted and ignored, as in the source). -/
def get_recommendation (severity : OverallSeverity) (_issues : List Issue) : String :=
  if severity = .CRITICAL then "DO_NOT_SEND"
  else if severity = .HIGH then "REVIEW"
  else if severity = .MEDIUM then "REVIEW"
  else "SEND"

/-- Result dict of `validate_modification` (presentational `summary` and
`validated_at` timestamp fields are out of scope and omitted). -/
structure ValidationResult where
  is_valid : Bool
  severity : OverallSeverity
  issues : List Issue
  warnings : List String
  recommendation : String
deriving DecidableEq, Repr

/-- `AssessmentModificationValidator.validate_modification`. -/
def validate_modification (assessment : Assessment) (ms : ModContent) : ValidationResult :=
  let issues :=
    validate_medications assessment ms.modified_otc_suggestions
    ++ validate_recommendations assessment ms.modified_recommendations
    ++ validate_monitoring assessment ms.modified_monitoring_advice
    ++ validate_notes ms.clinician_notes
    ++ validate_overall_consistency assessment ms
  let severity := determine_severity issues
  { is_valid := (issues.filter (fun i => i.severity = .CRITICAL ∨ i.severity = .HIGH)).length = 0,
    severity := severity,
    issues := issues,
    warnings := issues.map Issue.message,
    recommendation := get_recommendation severity issues }

/-! Spec-side formulation of severity aggregation (from the spec's words:
"overall severity is the maximum severity across all findings,
CRITICAL > HIGH > MEDIUM > LOW > OK-with-no-findings"), used to compare
against `determine_severity`. -/

/-- Rank of an overall severity in the spec's order. -/
def osRank : OverallSeverity → Nat
  | .OK => 0
  | .LOW => 1
  | .MEDIUM => 2
  | .HIGH => 3
  | .CRITICAL => 4

/-- An issue severity viewed as an overall severity. -/
def sevToOverall : Severity → OverallSeverity
  | .LOW => .LOW
  | .MEDIUM => .MEDIUM
  | .HIGH => .HIGH
  | .CRITICAL => .CRITICAL

/-- Maximum of two overall severities in the spec's order. -/
def osMax (a b : OverallSeverity) : OverallSeverity :=
  if osRank a ≥ osRank b then a else b

/-- Modelled from the spec: overall severity as the maximum severity
across all findings, `OK` with no findings. -/
def spec_overall_severity (issues : List Issue) : OverallSeverity :=
  issues.foldr (fun i acc => osMax (sevToOverall i.severity) acc) .OK

/-- `determine_severity` as a function of the mapped severities alone. -/
def sevChain (severities : List Severity) : OverallSeverity :=
  if severities.contains .CRITICAL then .CRITICAL
  else if severities.contains .HIGH then .HIGH
  else if severities.contains .MEDIUM then .MEDIUM
  else if severities.contains .LOW then .LOW
  else .OK

/-- Assessment of the C4 scenario (no original blocks). -/
def C4_assessment : Assessment :=
  { symptoms_overview := none, key_observations := none,
    preliminary_recommendations := none, otc_suggestions := none, monitoring_advice := none }

/-- Modification of the C4 scenario: medications list
`[{name: 'Ibuprofen', dosage: '2000mg', frequency: 'every hour'}]`. -/
def C4_mod : ModContent :=
  { modified_otc_suggestions := some ⟨[.dict "Ibuprofen" "2000mg" "every hour"]⟩,
    modified_recommendations := none, modified_monitoring_advice := none, clinician_notes := "" }

/-! ## Clinician WhatsApp handler (`apps/clinician/whatsapp_handler.py`)

The state is the view of one clinician and the single case (conversation +
assessment) the claims are about; `id__startswith` lookups match against
the one assessment id.  Messages to the clinician are purely
presentational and counted (`clinician_sends`); messages to the patient
are kept verbatim in `patient_msgs`. -/

/-- `ModificationSession.current_step` values. -/
inductive WStep
  | MEDICATIONS | RECOMMENDATIONS | MONITORING | NOTES | CONFIRM
deriving DecidableEq, Repr

/-- `ModificationSession.status` values. -/
inductive ModStatus
  | IN_PROGRESS | COMPLETED | CANCELLED | EXPIRED
deriving DecidableEq, Repr

/-- A `ModificationSession` row (time in seconds; JSON block fields default
to null, `clinician_notes` to the empty string, per the model). -/
structure MSession where
  sid : String
  created_at : Nat
  status : ModStatus
  current_step : WStep
  modified_otc_suggestions : Option MedsBlock
  modified_recommendations : Option RecsBlock
  modified_monitoring_advice : Option MonBlock
  clinician_notes : String
  validation_result : Option ValidationResult
  sent_with_warnings : Bool
  warning_override_reason : String
deriving DecidableEq, Repr

/-- The content fields of a session, as read by `validate_modification`. -/
def MSession.content (s : MSession) : ModContent :=
  { modified_otc_suggestions := s.modified_otc_suggestions,
    modified_recommendations := s.modified_recommendations,
    modified_monitoring_advice := s.modified_monitoring_advice,
    clinician_notes := s.clinician_notes }

/-- `ModificationSession.is_expired`: `now - created_at > 1 hour`. -/
def MSession.is_expired (s : MSession) (now : Nat) : Bool :=
  s.created_at + 3600 < now

/-- An `AssessmentReview` row. -/
structure AReview where
  action : String
  clinician_notes : String
  clinician_risk_level : String
  modified_recommendations : Option RecsBlock
  modified_otc_suggestions : Option MedsBlock
  modified_monitoring_advice : Option MonBlock
deriving DecidableEq, Repr

/-- Persistent state visible to the clinician handler. -/
structure ClinState where
  assessment_id : String
  assessment : Assessment
  assessment_status : String
  conversation_status : String
  availability_status : String
  patient_first_name : String
  clinician_last_name : String
  mod_sessions : List MSession
  reviews : List AReview
  patient_msgs : List String
  patient_pdfs : Nat
  clinician_sends : Nat
  validator_calls : Nat
  audit_logs : Nat
  message_rows : Nat
  prescription_rows : Nat
  next_session_id : String
deriving DecidableEq, Repr

/-- `twilio.send_message(clinician...)` (content presentational, counted). -/
def sendClin (st : ClinState) : ClinState :=
  { st with clinician_sends := st.clinician_sends + 1 }

/-- `twilio.send_message(patient...)` (content kept). -/
def sendPatient (st : ClinState) (content : String) : ClinState :=
  { st with patient_msgs := st.patient_msgs ++ [content] }

/-- `AuditLog.objects.create(...)` (counted). -/
def auditLog (st : ClinState) : ClinState :=
  { st with audit_logs := st.audit_logs + 1 }

/-- Update the session row with the given id. -/
def updateSession (st : ClinState) (sid : String) (f : MSession → MSession) : ClinState :=
  { st with mod_sessions := st.mod_sessions.map (fun s => if s.sid = sid then f s else s) }

/-- Python `a or b` on optional JSON blocks (`None` is falsy). -/
def pyOr {α : Type} (a b : Option α) : Option α :=
  match a with
  | some x => some x
  | none => b

/-- `ClinicianWhatsAppHandler._get_active_modification_session`: filter to
IN_PROGRESS sessions created within the last hour (newest first from the
model's `-created_at` ordering), take the first, and run the `is_expired`
recheck on it. -/
def get_active_modification_session (now : Nat) (st : ClinState) :
    Option MSession × ClinState :=
  match (st.mod_sessions.filter
      (fun s => s.status = .IN_PROGRESS ∧ now ≤ s.created_at + 3600)).head? with
  | none => (none, st)
  | some s =>
      if s.is_expired now then
        (none, sendClin (updateSession st s.sid (fun x => { x with status := .EXPIRED })))
      else (some s, st)

/-- `ClinicianWhatsAppHandler._parse_medication`: `name|dosage|frequency`. -/
def parse_medication (med_text : String) : Option MedItem :=
  match strSplitOnChar '|' med_text with
  | p1 :: p2 :: p3 :: _ => some (.dict (strTrim p1) (strTrim p2) (strTrim p3))
  | _ => none

/-- `_send_modification_step` (one presentational message). -/
def send_modification_step (st : ClinState) : ClinState :=
  sendClin st

/-- `_finalize_modifications`: create the MODIFIED review row, set the
assessment status to MODIFIED, mark the session COMPLETED, audit, notify. -/
def finalize_modifications (st : ClinState) (ms : MSession) : ClinState :=
  let review : AReview :=
    { action := "MODIFIED",
      clinician_notes := ms.clinician_notes,
      clinician_risk_level := "MODERATE",
      modified_recommendations := ms.modified_recommendations,
      modified_otc_suggestions := ms.modified_otc_suggestions,
      modified_monitoring_advice := ms.modified_monitoring_advice }
  let st := { st with reviews := st.reviews ++ [review], assessment_status := "MODIFIED" }
  let st := updateSession st ms.sid (fun x => { x with status := .COMPLETED })
  sendClin (auditLog st)

/-- `_handle_modification_workflow`: one clinician message while a
modification session is active. -/
def handle_modification_workflow (st : ClinState) (response0 : String) (ms : MSession) :
    ClinState :=
  let response := strLower (strTrim response0)
  match ms.current_step with
  | .MEDICATIONS =>
      if response = "1" then
        let newBlock := pyOr ms.modified_otc_suggestions
          (pyOr st.assessment.otc_suggestions (some ⟨[]⟩))
        let st := updateSession st ms.sid
          (fun x => { x with modified_otc_suggestions := newBlock,
                             current_step := .RECOMMENDATIONS })
        send_modification_step (sendClin st)
      else if strStartsWith response "2" ∨ strStartsWith response "add" then
        let med_text := strTrim (strReplace response "add" "")
        let block := pyOr ms.modified_otc_suggestions
          (pyOr st.assessment.otc_suggestions (some ⟨[]⟩))
        match parse_medication med_text with
        | some parsed_med =>
            let meds := (block.map MedsBlock.medications).getD []
            sendClin (updateSession st ms.sid
              (fun x => { x with modified_otc_suggestions := some ⟨meds ++ [parsed_med]⟩ }))
        | none => sendClin st
      else if response = "3" then
        let st := updateSession st ms.sid
          (fun x => { x with modified_otc_suggestions := some ⟨[]⟩,
                             current_step := .RECOMMENDATIONS })
        send_modification_step (sendClin st)
      else if strStartsWith response "remove" then
        match pyInt? ((pySplitWs response).getLastD "") with
        | none => sendClin st
        | some n =>
            let idx : Int := n - 1
            let block := pyOr ms.modified_otc_suggestions
              (pyOr st.assessment.otc_suggestions (some ⟨[]⟩))
            let meds := (block.map MedsBlock.medications).getD []
            if 0 ≤ idx ∧ idx < (meds.length : Int) then
              let popped := some (⟨meds.eraseIdx idx.toNat⟩ : _)
              sendClin (updateSession st ms.sid
                (fun x => { x with modified_otc_suggestions := popped }))
            else sendClin st
      else st
  | .RECOMMENDATIONS =>
      if response = "1" then
        let newBlock := pyOr ms.modified_recommendations
          (pyOr st.assessment.preliminary_recommendations (some ⟨[]⟩))
        let st := updateSession st ms.sid
          (fun x => { x with modified_recommendations := newBlock,
                             current_step := .MONITORING })
        send_modification_step (sendClin st)
      else if strStartsWith response "2" ∨ strStartsWith response "add" then
        let rec_text := strTrim (strReplace response "add" "")
        let block := pyOr ms.modified_recommendations
          (pyOr st.assessment.preliminary_recommendations (some ⟨[]⟩))
        let recs := (block.map RecsBlock.lifestyle_changes).getD []
        sendClin (updateSession st ms.sid
          (fun x => { x with modified_recommendations := some ⟨recs ++ [rec_text]⟩ }))
      else if response = "3" then
        let st := updateSession st ms.sid
          (fun x => { x with modified_recommendations := some ⟨[]⟩,
                             current_step := .MONITORING })
        send_modification_step (sendClin st)
      else if strStartsWith response "remove" then
        match pyInt? ((pySplitWs response).getLastD "") with
        | none => sendClin st
        | some n =>
            let idx : Int := n - 1
            let block := pyOr ms.modified_recommendations
              (pyOr st.assessment.preliminary_recommendations (some ⟨[]⟩))
            let recs := (block.map RecsBlock.lifestyle_changes).getD []
            if 0 ≤ idx ∧ idx < (recs.length : Int) then
              let popped := some (⟨recs.eraseIdx idx.toNat⟩ : _)
              sendClin (updateSession st ms.sid
                (fun x => { x with modified_recommendations := popped }))
            else sendClin st
      else st
  | .MONITORING =>
      if response = "1" then
        let newBlock := pyOr ms.modified_monitoring_advice
          (pyOr st.assessment.monitoring_advice (some ⟨[]⟩))
        let st := updateSession st ms.sid
          (fun x => { x with modified_monitoring_advice := newBlock,
                             current_step := .NOTES })
        send_modification_step (sendClin st)
      else if strStartsWith response "2" ∨ strStartsWith response "add" then
        let guide_text := strTrim (strReplace response "add" "")
        let block := pyOr ms.modified_monitoring_advice
          (pyOr st.assessment.monitoring_advice (some ⟨[]⟩))
        let guides := (block.map MonBlock.when_to_seek_help).getD []
        sendClin (updateSession st ms.sid
          (fun x => { x with modified_monitoring_advice := some ⟨guides ++ [guide_text]⟩ }))
      else if response = "3" then
        let st := updateSession st ms.sid
          (fun x => { x with modified_monitoring_advice := some ⟨[]⟩,
                             current_step := .NOTES })
        send_modification_step (sendClin st)
      else if strStartsWith response "remove" then
        match pyInt? ((pySplitWs response).getLastD "") with
        | none => sendClin st
        | some n =>
            let idx : Int := n - 1
            let block := pyOr ms.modified_monitoring_advice
              (pyOr st.assessment.monitoring_advice (some ⟨[]⟩))
            let guides := (block.map MonBlock.when_to_seek_help).getD []
            if 0 ≤ idx ∧ idx < (guides.length : Int) then
              let popped := some (⟨guides.eraseIdx idx.toNat⟩ : _)
              sendClin (updateSession st ms.sid
                (fun x => { x with modified_monitoring_advice := popped }))
            else sendClin st
      else st
  | .NOTES =>
      if response = "1" then
        let st := updateSession st ms.sid
          (fun x => { x with clinician_notes := "", current_step := .CONFIRM })
        send_modification_step (sendClin st)
      else
        let st := updateSession st ms.sid
          (fun x => { x with clinician_notes := response, current_step := .CONFIRM })
        send_modification_step (sendClin st)
  | .CONFIRM =>
      if strStartsWith response "1" ∨ strStartsWith response "confirm" then
        finalize_modifications st ms
      else if strStartsWith response "2" ∨ strStartsWith response "cancel" then
        sendClin (updateSession st ms.sid (fun x => { x with status := .CANCELLED }))
      else st

/-- Decimal digit as a character. -/
def digitChar (n : Nat) : Char :=
  Char.ofNat (48 + n)

/-- Decimal rendering of a natural number (fuel-structural). -/
def natToStrAux : Nat → Nat → List Char
  | 0, _ => []
  | fuel + 1, n => if n < 10 then [digitChar n] else natToStrAux fuel (n / 10) ++ [digitChar (n % 10)]

/-- Python `f"{n}"` for a natural number. -/
def natToStr (n : Nat) : String :=
  String.mk (natToStrAux (n + 1) n)

/-- One line of the medications section of the patient message. -/
def medLine (med : MedItem) : String :=
  match med with
  | .dict n d f => "• " ++ n ++ ": " ++ d ++ " " ++ f ++ "\n"
  | .str s => "• " ++ s ++ "\n"

/-- `_format_assessment_message_for_patient`. -/
def format_assessment_message_for_patient (st : ClinState)
    (final_recs : Option RecsBlock) (final_meds : Option MedsBlock)
    (final_monitoring : Option MonBlock) (notes : String) : String :=
  let symptoms := match st.assessment.symptoms_overview with
    | some b => b.primary_symptoms
    | none => []
  let condition := match st.assessment.key_observations with
    | some o => o.likely_condition
    | none => "Assessment complete"
  let severity := match st.assessment.symptoms_overview with
    | some b => b.severity_rating
    | none => 5
  let duration := match st.assessment.symptoms_overview with
    | some b => b.duration
    | none => "Unknown"
  let message := "✅ *Assessment Complete*\n\n"
  let message := message ++ "Hi " ++
    (if st.patient_first_name.isEmpty then "Patient" else st.patient_first_name) ++ ",\n\n"
  let message := message ++ "Dr. " ++ st.clinician_last_name ++ " has reviewed your assessment.\n\n"
  let message := message ++ "📋 *YOUR SYMPTOMS:*\n"
  let message := message ++ String.join ((symptoms.take 3).map (fun s => "• " ++ s ++ "\n"))
  let message := message ++ "Severity: " ++ natToStr severity ++ "/10 | Duration: " ++ duration ++ "\n\n"
  let message := message ++ "💡 *LIKELY CAUSE:*\n" ++ condition ++ "\n\n"
  let message := message ++ "💊 *MEDICATIONS:*\n"
  let medications := match final_meds with
    | some b => b.medications
    | none => []
  let message := message ++ String.join ((medications.take 2).map medLine)
  let message := message ++ "\n *WHAT TO DO:*\n"
  let recs := match final_recs with
    | some b => b.lifestyle_changes
    | none => []
  let message := message ++ String.join ((recs.take 3).map (fun r => "• " ++ r ++ "\n"))
  let message := message ++ "\n *SEEK HELP IF:*\n"
  let when_help := match final_monitoring with
    | some b => b.when_to_seek_help
    | none => []
  let message := message ++ String.join ((when_help.take 3).map (fun w => "• " ++ w ++ "\n"))
  let message := message ++
    (if notes.isEmpty then "" else "\n *DOCTOR'S NOTE:*\n" ++ notes)
  message ++ "\n\n💬 Reply to ask questions"

/-- `_finalize_send_to_patient`: format the merged content, send the text
and the rendered document to the patient, set the assessment
SENT_TO_PATIENT, flip the conversation to DIRECT_MESSAGING, persist a
message row and a prescription row, confirm to the clinician. -/
def finalize_send_to_patient (st : ClinState) (mod? : Option MSession) : ClinState :=
  let final_recs := match mod? with
    | some ms => pyOr ms.modified_recommendations st.assessment.preliminary_recommendations
    | none => st.assessment.preliminary_recommendations
  let final_meds := match mod? with
    | some ms => pyOr ms.modified_otc_suggestions st.assessment.otc_suggestions
    | none => st.assessment.otc_suggestions
  let final_monitoring := match mod? with
    | some ms => pyOr ms.modified_monitoring_advice st.assessment.monitoring_advice
    | none => st.assessment.monitoring_advice
  let notes := match mod? with
    | some ms => ms.clinician_notes
    | none => ""
  let formatted := format_assessment_message_for_patient st final_recs final_meds final_monitoring notes
  let st := sendPatient st formatted
  let st := { st with patient_pdfs := st.patient_pdfs + 1 }
  let st := { st with assessment_status := "SENT_TO_PATIENT",
                      conversation_status := "DIRECT_MESSAGING" }
  let st := { st with message_rows := st.message_rows + 1,
                      prescription_rows := st.prescription_rows + 1 }
  sendClin st

/-- `_send_validation_report`: summary, optional issue details, then the
severity-dependent option menu (two messages in every branch). -/
def send_validation_report (st : ClinState) (validation_result : ValidationResult) : ClinState :=
  let st := sendClin st
  let st := if ¬ validation_result.issues.isEmpty then sendClin st else st
  if validation_result.recommendation = "DO_NOT_SEND" then sendClin (sendClin st)
  else if validation_result.recommendation = "REVIEW" then sendClin (sendClin st)
  else if validation_result.recommendation = "SEND" then sendClin (sendClin st)
  else st

/-- `_handle_send`. -/
def handle_send (st : ClinState) (args : String) : ClinState :=
  if (strTrim args).isEmpty then sendClin st
  else
    match pySplitWs args with
    | [] => sendClin st
    | assessment_id :: _ =>
        if ¬ strStartsWith st.assessment_id assessment_id then sendClin st
        else if st.assessment_status ≠ "APPROVED" ∧ st.assessment_status ≠ "MODIFIED" then
          sendClin st
        else
          match (st.mod_sessions.filter (fun s => s.status = .COMPLETED)).head? with
          | some mod_session =>
              let st := { st with validator_calls := st.validator_calls + 1 }
              let validation_result := validate_modification st.assessment mod_session.content
              let st := updateSession st mod_session.sid
                (fun x => { x with validation_result := some validation_result })
              send_validation_report st validation_result
          | none => finalize_send_to_patient st none

/-- `_get_assessment_by_id` (single-case view: prefix match on the one id). -/
def get_assessment_found (st : ClinState) (assessment_id : String) : Bool :=
  strStartsWith st.assessment_id assessment_id

/-- `_get_modification_session`: `get(id__startswith, status='COMPLETED')`.
`some (some m)` on a unique match, `some none` when there is none
(`DoesNotExist` → `None`), `none` when several rows match
(`MultipleObjectsReturned` escapes to the caller's generic handler). -/
def get_modification_session (st : ClinState) (session_id : String) :
    Option (Option MSession) :=
  match st.mod_sessions.filter
      (fun s => strStartsWith s.sid session_id ∧ s.status = .COMPLETED) with
  | [] => some none
  | [m] => some (some m)
  | _ => none

/-- `_handle_send_anyway`: dispatch despite validation warnings. -/
def handle_send_anyway (st : ClinState) (assessment_id session_id : String) : ClinState :=
  match get_modification_session st session_id with
  | none => sendClin st
  | some mod? =>
      if ¬ get_assessment_found st assessment_id then sendClin st
      else
        match mod? with
        | none => sendClin st
        | some mod_session =>
            let st := updateSession st mod_session.sid
              (fun x =>
                { x with
                  sent_with_warnings := true,
                  warning_override_reason :=
                    "Clinician chose to send despite validation warnings" })
            let st := auditLog st
            let st := sendClin st
            finalize_send_to_patient st (some mod_session)

/-- `_handle_confirm_send`: dispatch after a passed validation. -/
def handle_confirm_send (st : ClinState) (assessment_id session_id : String) : ClinState :=
  match get_modification_session st session_id with
  | none => sendClin st
  | some mod? =>
      if ¬ get_assessment_found st assessment_id then sendClin st
      else
        match mod? with
        | none => sendClin st
        | some mod_session =>
            let st := auditLog st
            finalize_send_to_patient st (some mod_session)

/-- `_handle_approve`. -/
def handle_approve (st : ClinState) (args : String) : ClinState :=
  if (strTrim args).isEmpty then sendClin st
  else
    match pySplitWs args with
    | [] => sendClin st
    | assessment_id :: _ =>
        if ¬ get_assessment_found st assessment_id then sendClin st
        else
          let review : AReview :=
            { action := "APPROVED", clinician_notes := "Approved via WhatsApp",
              clinician_risk_level := "MODERATE", modified_recommendations := none,
              modified_otc_suggestions := none, modified_monitoring_advice := none }
          let st := { st with reviews := st.reviews ++ [review],
                              assessment_status := "APPROVED" }
          sendClin (auditLog st)

/-- `_handle_reject`. -/
def handle_reject (st : ClinState) (args : String) : ClinState :=
  if (strTrim args).isEmpty then sendClin st
  else
    match pySplitWs args with
    | [] => sendClin st
    | assessment_id :: _ =>
        if ¬ get_assessment_found st assessment_id then sendClin st
        else
          let review : AReview :=
            { action := "REJECTED",
              clinician_notes := "Rejected via WhatsApp - needs more info",
              clinician_risk_level := "MODERATE", modified_recommendations := none,
              modified_otc_suggestions := none, modified_monitoring_advice := none }
          let st := { st with reviews := st.reviews ++ [review],
                              assessment_status := "REJECTED" }
          sendClin (auditLog st)

/-- `_start_modify_workflow`: create a fresh IN_PROGRESS session at step
MEDICATIONS and prompt for it. -/
def start_modify_workflow (now : Nat) (st : ClinState) (args : String) : ClinState :=
  if (strTrim args).isEmpty then sendClin st
  else
    match pySplitWs args with
    | [] => sendClin st
    | assessment_id :: _ =>
        if ¬ get_assessment_found st assessment_id then sendClin st
        else
          let fresh : MSession :=
            { sid := st.next_session_id, created_at := now, status := .IN_PROGRESS,
              current_step := .MEDICATIONS, modified_otc_suggestions := none,
              modified_recommendations := none, modified_monitoring_advice := none,
              clinician_notes := "", validation_result := none,
              sent_with_warnings := false, warning_override_reason := "" }
          let st := { st with mod_sessions := fresh :: st.mod_sessions }
          send_modification_step (sendClin st)

/-- `_handle_message`: forward free text to the patient. -/
def handle_message (st : ClinState) (args : String) : ClinState :=
  if (strTrim args).isEmpty then sendClin st
  else
    match pySplitMax1 args with
    | [_] => sendClin st
    | [input_id, msg_text] =>
        if ¬ get_assessment_found st input_id then sendClin st
        else
          let st := sendPatient st msg_text
          auditLog { st with message_rows := st.message_rows + 1 }
    | _ => sendClin st

/-- `_handle_close`: discharge the patient. -/
def handle_close (st : ClinState) (args : String) : ClinState :=
  if (strTrim args).isEmpty then sendClin st
  else
    match pySplitWs args with
    | [] => sendClin st
    | input_id :: _ =>
        if ¬ get_assessment_found st input_id then sendClin st
        else
          let st := { st with conversation_status := "COMPLETED" }
          let st := if st.availability_status = "BUSY" then
              { st with availability_status := "AVAILABLE" }
            else st
          let st := sendPatient st
            ("*SESSION CLOSED*\n\nDr. " ++ st.clinician_last_name ++
             " has closed this consultation.\n\nIf you have a new health concern in the future, just reply *Hi* to start a new assessment. 👋")
          sendClin st

/-- `_handle_status`: update availability. -/
def handle_status (st : ClinState) (args : String) : ClinState :=
  if (strTrim args).isEmpty then sendClin st
  else
    match pySplitWs args with
    | [] => sendClin st
    | tok :: _ =>
        let new_status := String.mk (tok.data.map Char.toUpper)
        if new_status ≠ "AVAILABLE" ∧ new_status ≠ "BUSY" ∧ new_status ≠ "OFFLINE" then
          sendClin st
        else
          sendClin (auditLog { st with availability_status := new_status })

/-- The command dispatch of `process_clinician_message` (first word of the
message, lowered, with the rest as arguments). -/
def route_command (now : Nat) (st : ClinState) (command args : String) : ClinState :=
  if command = "send_anyway" then
        match pySplitWs args with
        | p1 :: p2 :: _ => handle_send_anyway st p1 p2
        | _ => st
      else if command = "confirm_send" then
        match pySplitWs args with
        | p1 :: p2 :: _ => handle_confirm_send st p1 p2
        | _ => st
      else if command = "help" then sendClin st
      else if command = "pending" then sendClin st
      else if command = "modify" then start_modify_workflow now st args
      else if command = "escalations" then sendClin st
      else if command = "patients" then sendClin st
      else if command = "approve" then handle_approve st args
      else if command = "reject" then handle_reject st args
      else if command = "send" then handle_send st args
      else if command = "message" then handle_message st args
      else if command = "status" then handle_status st args
      else if command = "close" ∨ command = "discharge" then handle_close st args
      else sendClin st

/-- `ClinicianWhatsAppHandler.process_clinician_message`: capture by an
active modification session first, otherwise route the first word as a
command. -/
def process_clinician_message (now : Nat) (st : ClinState) (body0 : String) : ClinState :=
  let message_body := strTrim body0
  match get_active_modification_session now st with
  | (some mod_session, st) => handle_modification_workflow st message_body mod_session
  | (none, st) =>
      let st := auditLog st
      let command_parts := pySplitMax1 message_body
      let command := strLower (command_parts.headD "")
      let args := command_parts.getD 1 ""
      route_command now st command args

/-! ## Patient-side message handler (`services/message_handler.py`)

State of one patient's conversation.  Static message templates (welcome
screen, credit menu, hint texts and similar fixed wording) are represented
by short constant strings - the spec places message wording out of scope -
while generator-derived texts (triage questions and their fallbacks) are
kept exactly.  AI-engine calls are oracles passed in as `Option` values
(`none` models the call raising). -/

/-- `ConversationSession.status` values. -/
inductive ConvStatus
  | INITIAL | AWAITING_ACCEPTANCE | MODE_SELECTION | AI_ONLY_ACTIVE | ESCALATION_CONSENT
  | AWAITING_PATIENT_PROFILE | AI_TRIAGE_IN_PROGRESS | PENDING_PAYMENT
  | PENDING_CLINICIAN_REVIEW | DIRECT_MESSAGING | ESCALATED | CLOSED | COMPLETED
deriving DecidableEq, Repr

/-- A `TriageQuestion` row. -/
structure TriageQ where
  qid : Nat
  question_order : Nat
  question_text : String
  patient_response : Option String
  response_processed : Bool
deriving DecidableEq, Repr

/-- An `EscalationAlert` row. -/
structure EscAlert where
  alert_status : String
  alert_message : String
  alert_severity : String
deriving DecidableEq, Repr

/-- The `AIAssessment` row created by triage. -/
structure PAssessment where
  content : Assessment
  confidence_score : ℚ
  status : String
deriving DecidableEq, Repr

/-- A `ClinicianAvailability` row. -/
structure ClinAvail where
  clinician_id : Nat
  status : String
  current_patient_count : Nat
deriving DecidableEq, Repr

/-- A `PaymentHistory` row. -/
structure PaymentRec where
  reference : String
  status : String
  package_credits : Nat
deriving DecidableEq, Repr

/-- Persistent state visible to the patient-side handler. -/
structure PatientState where
  conv_status : ConvStatus
  mode : String
  chief_complaint : String
  is_escalated : Bool
  escalation_reason : String
  is_paid : Bool
  ai_questions_asked : Nat
  assigned_clinician : Option Nat
  triage_questions : List TriageQ
  next_qid : Nat
  alerts : List EscAlert
  profile_age : Option Nat
  profile_gender : Option String
  consultation_credits : Nat
  assessment : Option PAssessment
  availability : List ClinAvail
  payments : List PaymentRec
  assignment_rows : Nat
  outbound : List String
  clin_notifications : Nat
  message_rows : Nat
  gen_assessment_requests : Nat
deriving DecidableEq, Repr

/-- Results of the text-generation collaborators for one handler
invocation (`none` models the call raising an exception). -/
structure AIOracle where
  ai_only_response : Option String
  first_question : Option String
  next_question : Option String
  assessment_result : Option (Assessment × ℚ)
deriving Repr

/-- `twilio.send_message(patient...)`. -/
def sendP (st : PatientState) (content : String) : PatientState :=
  { st with outbound := st.outbound ++ [content] }

/-- `Message.objects.create(...)` (counted row). -/
def saveMsgRow (st : PatientState) : PatientState :=
  { st with message_rows := st.message_rows + 1 }

/-- Modelled from the spec: `settings.RED_FLAG_KEYWORDS` (the Django
settings module is not part of the source tree).  The spec defines a red
flag as "a keyword/phrase indicating a possible medical emergency" whose
scenario trigger is the chief complaint "severe chest pain". -/
def RED_FLAG_KEYWORDS : List String :=
  ["chest pain", "difficulty breathing", "severe bleeding", "unconscious", "suicidal"]

/-- `MessageHandler._check_red_flags`. -/
def check_red_flags (text : String) : Bool :=
  RED_FLAG_KEYWORDS.any (fun keyword => strContains (strLower text) keyword)

/-- `MessageHandler._user_requesting_doctor`. -/
def user_requesting_doctor (text : String) : Bool :=
  let doctor_request_keywords :=
    ["connect me", "talk to doctor", "see a doctor", "speak to doctor",
     "need a doctor", "want a doctor", "talk to clinician", "see clinician",
     "connect to doctor", "get a doctor", "consult doctor", "doctor please",
     "real doctor", "human doctor", "actual doctor"]
  doctor_request_keywords.any (fun keyword => strContains (strLower text) keyword)

/-- `MessageHandler._requires_clinical_assessment`. -/
def requires_clinical_assessment (text : String) : Bool :=
  let clinical_triggers :=
    ["diagnose", "diagnosis", "what do i have", "is it", "do i have",
     "prescription", "prescribe", "medication for", "treatment for",
     "how long", "when should i", "is this serious", "should i worry",
     "broken", "fracture", "injury", "accident", "bleeding", "pain",
     "severe", "urgent", "emergency"]
  clinical_triggers.any (fun trigger => strContains (strLower text) trigger)

/-- `MessageHandler._trigger_escalation_request`: move to consent state and
ask; no `EscalationAlert` is created here. -/
def trigger_escalation_request (st : PatientState) (trigger_text : String) : PatientState :=
  let st := { st with conv_status := .ESCALATION_CONSENT,
                      escalation_reason := String.mk (trigger_text.data.take 200) }
  saveMsgRow (sendP st "[ESCALATION CONSENT PROMPT]")

/-- `MessageHandler._handle_escalation`: flag the conversation ESCALATED,
create the CRITICAL `EscalationAlert`, notify the assigned clinician when
there is one; nothing is sent to the patient. -/
def handle_escalation (st : PatientState) (trigger_text : String) : PatientState :=
  let st := { st with is_escalated := true, conv_status := .ESCALATED }
  let alert : EscAlert :=
    { alert_status := "PENDING", alert_message := "Red flag: " ++ trigger_text,
      alert_severity := "CRITICAL" }
  let st := { st with alerts := st.alerts ++ [alert] }
  match st.assigned_clinician with
  | some _ => { st with clin_notifications := st.clin_notifications + 1 }
  | none => st

/-- `MessageHandler._handle_ai_only_chat`. -/
def handle_ai_only_chat (o : AIOracle) (st : PatientState) (message_body : String) :
    PatientState :=
  if user_requesting_doctor message_body then trigger_escalation_request st message_body
  else if check_red_flags message_body then trigger_escalation_request st message_body
  else if requires_clinical_assessment message_body then trigger_escalation_request st message_body
  else
    match o.ai_only_response with
    | some ai_response => saveMsgRow (sendP st ai_response)
    | none => sendP st "I'm having trouble processing that. Could you rephrase your question?"

/-- `MessageHandler._handle_escalation_consent`. -/
def handle_escalation_consent (st : PatientState) (message_body : String) : PatientState :=
  let msg_upper := String.mk ((strTrim message_body).data.map Char.toUpper)
  if msg_upper = "YES" then
    let st := { st with mode := "CLINICIAN", conv_status := .AWAITING_PATIENT_PROFILE,
                        is_escalated := true }
    sendP st "[CONSENT ACCEPTED - ASK AGE]"
  else if msg_upper = "NO" then
    sendP { st with conv_status := .AI_ONLY_ACTIVE } "[CONSENT DECLINED]"
  else sendP st "[CONSENT REPROMPT]"

/-- `MessageHandler._start_ai_triage`: first question from the generator
(order 1), recorded and sent; a generator failure reports an error. -/
def start_ai_triage (o : AIOracle) (st : PatientState) : PatientState :=
  match o.first_question with
  | none => sendP st "An error occurred. Please try again later."
  | some question =>
      let st := { st with
        triage_questions := st.triage_questions ++
          [{ qid := st.next_qid, question_order := 1, question_text := question,
             patient_response := none, response_processed := false }],
        next_qid := st.next_qid + 1 }
      let st := saveMsgRow (sendP st question)
      { st with ai_questions_asked := 1 }

/-- `MessageHandler._handle_profile_collection` steps after the age branch. -/
def profile_gender_and_chief (o : AIOracle) (st : PatientState) (message_body : String) :
    PatientState :=
  match st.profile_gender with
  | none =>
      let gender_input := String.mk (message_body.data.map Char.toUpper)
      if gender_input = "MALE" ∨ gender_input = "FEMALE" ∨ gender_input = "OTHER" then
        saveMsgRow (sendP { st with profile_gender := some gender_input }
          "[ASK CHIEF COMPLAINT]")
      else sendP st "Please reply: Male, Female, or Other"
  | some _ =>
      if message_body.length > 3 then
        if strLower message_body = "hi" ∨ strLower message_body = "hello" ∨
            strLower message_body = "hey" then
          sendP st "[ASK CHIEF COMPLAINT]"
        else
          let st := { st with chief_complaint := message_body,
                              conv_status := .AI_TRIAGE_IN_PROGRESS }
          if check_red_flags message_body then handle_escalation st message_body
          else start_ai_triage o st
      else sendP st "Please describe your symptoms in a bit more detail."

/-- `MessageHandler._handle_profile_collection`. -/
def handle_profile_collection (o : AIOracle) (st : PatientState) (message_body : String) :
    PatientState :=
  match st.profile_age with
  | none =>
      (match pyInt? message_body with
       | none => sendP st "Please enter a valid age (number)"
       | some age =>
          if 0 < age ∧ age < 150 then
            saveMsgRow (sendP { st with profile_age := some age.toNat } "[ASK GENDER]")
          else profile_gender_and_chief o st message_body)
  | some _ => profile_gender_and_chief o st message_body

/-- Stable minimum of the availability rows by `current_patient_count`
(`order_by('current_patient_count')[:1]`). -/
def minByCount : List ClinAvail → Option ClinAvail
  | [] => none
  | a :: t =>
      match minByCount t with
      | none => some a
      | some b => if a.current_patient_count ≤ b.current_patient_count then some a else some b

/-- `workflow_service._assign_clinician`. -/
def assign_clinician (st : PatientState) : PatientState :=
  let available := st.availability.filter
    (fun a => a.status = "AVAILABLE" ∨ a.status = "ON_CALL")
  match minByCount available with
  | none => st
  | some a =>
      { st with assigned_clinician := some a.clinician_id,
                assignment_rows := st.assignment_rows + 1,
                clin_notifications := st.clin_notifications + 1 }

/-- `workflow_service.finalize_consultation_flow`: deduct a credit, move
the assessment to PENDING_REVIEW and the conversation to
PENDING_CLINICIAN_REVIEW, assign a clinician and send the summary. -/
def finalize_consultation_flow (st : PatientState) : PatientState :=
  if st.consultation_credits > 0 then
    let st := { st with consultation_credits := st.consultation_credits - 1 }
    let st := { st with
      assessment := st.assessment.map (fun a => { a with status := "PENDING_REVIEW" }),
      conv_status := .PENDING_CLINICIAN_REVIEW,
      is_paid := true }
    let st := assign_clinician st
    sendP st "[PAYMENT CONFIRMED - HEALTH SUMMARY]"
  else st

/-- `MessageHandler._format_patient_summary` (sentence assembly from the
assessment blocks). -/
def format_patient_summary (a : Assessment) : String :=
  let symptoms_list := match a.symptoms_overview with
    | some b => b.primary_symptoms
    | none => []
  let symptoms_text :=
    match symptoms_list with
    | [] => "general discomfort"
    | [x] => x
    | _ => strJoin ", " (symptoms_list.dropLast) ++ " and " ++ symptoms_list.getLastD ""
  let condition := match a.key_observations with
    | some o => o.likely_condition
    | none => "health concern"
  let severity_score := match a.symptoms_overview with
    | some b => b.severity_rating
    | none => 5
  let severity_text :=
    if severity_score ≤ 3 then "mild" else if severity_score ≤ 7 then "moderate" else "high"
  let raw_notes := match a.key_observations with
    | some o => o.notes
    | none => ""
  let context_note :=
    if raw_notes.isEmpty then ""
    else
      let clean_note := strTrim ((strSplitOnChar '.' raw_notes).headD "")
      if clean_note.isEmpty then ""
      else if strStartsWith (strLower clean_note) "patient" then
        ", and " ++ strLower clean_note
      else " (" ++ clean_note ++ ")"
  "📋 *YOUR HEALTH SUMMARY*\n" ++ "_(To be reviewed by Doctor)_\n\n" ++
    "Hey, looks like you've got a " ++ condition ++ " going on 😷. " ++
    "Symptoms include " ++ symptoms_text ++ context_note ++ " 🤔. " ++
    "Severity is " ++ severity_text ++ " (" ++ natToStr severity_score ++ "/10). " ++
    "The doctor is reviewing your case and will get back to you with a prescription or advice 💊. \n" ++
    "Anything else to add? Just reply to this message, and the doctor will see it."

/-- `MessageHandler._generate_assessment`: request generation, persist the
assessment, then either unlock immediately (credit available) or park in
PENDING_PAYMENT. -/
def generate_assessment (o : AIOracle) (st : PatientState) : PatientState :=
  let st := { st with gen_assessment_requests := st.gen_assessment_requests + 1 }
  match o.assessment_result with
  | none => sendP st "An error occurred generating your results. Please try again later."
  | some (content, conf) =>
      let row : PAssessment :=
        { content := content, confidence_score := conf, status := "PENDING_PAYMENT" }
      let st := { st with assessment := some row }
      if st.consultation_credits > 0 then
        let st := sendP st (format_patient_summary content)
        finalize_consultation_flow st
      else
        let st := { st with conv_status := .PENDING_PAYMENT }
        let st := sendP st "[ASSESSMENT COMPLETE - UNLOCK WITH CREDIT]"
        sendP st "[CREDIT MENU]"

/-- Stable minimum of the unprocessed triage questions by
`question_order` (`filter(response_processed=False).order_by('question_order').first()`). -/
def minByOrder : List TriageQ → Option TriageQ
  | [] => none
  | q :: t =>
      match minByOrder t with
      | none => some q
      | some b => if q.question_order ≤ b.question_order then some q else some b

/-- `MessageHandler._handle_triage_response` (`maxQ` is the configured
`settings.MAX_TRIAGE_QUESTIONS`). -/
def handle_triage_response (o : AIOracle) (maxQ : Nat) (st : PatientState)
    (message_body : String) : PatientState :=
  if (strTrim message_body).isEmpty then
    sendP st "I didn't catch that. Could you please repeat your answer?"
  else
    let last_question := minByOrder (st.triage_questions.filter (fun q => ¬ q.response_processed))
    let st := match last_question with
      | some lq =>
          { st with triage_questions := st.triage_questions.map (fun (q : TriageQ) =>
              if q.qid = lq.qid then
                { q with patient_response := some message_body, response_processed := true }
              else q) }
      | none => st
    let st := { st with ai_questions_asked := st.ai_questions_asked + 1 }
    if st.ai_questions_asked ≥ maxQ then generate_assessment o st
    else
      let next_question := match o.next_question with
        | some q => if (strTrim q).isEmpty then
            "Can you tell me more about your symptoms? Any other details that might help?"
          else q
        | none => "Thank you. Can you describe any other symptoms you're experiencing?"
      let st := { st with
        triage_questions := st.triage_questions ++
          [{ qid := st.next_qid, question_order := st.ai_questions_asked + 1,
             question_text := next_question, patient_response := none,
             response_processed := false }],
        next_qid := st.next_qid + 1 }
      saveMsgRow (sendP st next_question)

/-- `MessageHandler._handle_pending_review` / `_handle_direct_message`:
save the row, forward to the assigned clinician. -/
def handle_forward_to_clinician (st : PatientState) : PatientState :=
  let st := saveMsgRow st
  match st.assigned_clinician with
  | some _ => { st with clin_notifications := st.clin_notifications + 1 }
  | none => st

/-- `MessageHandler._send_welcome_screen`. -/
def send_welcome_screen (st : PatientState) : PatientState :=
  saveMsgRow (sendP { st with conv_status := .AWAITING_ACCEPTANCE } "[WELCOME + USER AGREEMENT]")

/-- `MessageHandler._handle_acceptance`. -/
def handle_acceptance (st : PatientState) (message_body : String) : PatientState :=
  let up := String.mk (message_body.data.map Char.toUpper)
  if up = "GET STARTED" then
    saveMsgRow (sendP { st with conv_status := .MODE_SELECTION } "[MODE SELECTION]")
  else if up = "DECLINE" then
    sendP { st with conv_status := .CLOSED } "[DECLINED GOODBYE]"
  else st

/-- `MessageHandler._handle_mode_selection`. -/
def handle_mode_selection (st : PatientState) (message_body : String) : PatientState :=
  let msg_clean := strTrim message_body
  if msg_clean = "1" then
    saveMsgRow (sendP { st with mode := "AI_ONLY", conv_status := .AI_ONLY_ACTIVE }
      "[AI ONLY DISCLAIMER]")
  else if msg_clean = "2" then
    saveMsgRow (sendP { st with mode := "CLINICIAN", conv_status := .AWAITING_PATIENT_PROFILE }
      "[CLINICIAN MODE START - ASK AGE]")
  else sendP st "Please reply with *1* for AI Chat or *2* for Clinician."

/-- `MessageHandler._route_message`: dispatch on the conversation status
(statuses without a branch - ESCALATED, PENDING_PAYMENT, terminal states -
fall through unhandled). -/
def route_message (o : AIOracle) (maxQ : Nat) (st : PatientState) (message_body : String) :
    PatientState :=
  match st.conv_status with
  | .INITIAL => send_welcome_screen st
  | .AWAITING_ACCEPTANCE => handle_acceptance st message_body
  | .MODE_SELECTION => handle_mode_selection st message_body
  | .AI_ONLY_ACTIVE => handle_ai_only_chat o st message_body
  | .ESCALATION_CONSENT => handle_escalation_consent st message_body
  | .AWAITING_PATIENT_PROFILE => handle_profile_collection o st message_body
  | .AI_TRIAGE_IN_PROGRESS => handle_triage_response o maxQ st message_body
  | .PENDING_CLINICIAN_REVIEW => handle_forward_to_clinician st
  | .DIRECT_MESSAGING => handle_forward_to_clinician st
  | _ => st

/-! ## Payment confirmation (`apps/subscriptions/views.py`) -/

/-- `activate_subscription(tx_ref)`: idempotent settlement of a payment
reference, credit top-up, and resumption of a parked assessment through
`finalize_consultation_flow`. -/
def activate_subscription (st : PatientState) (tx_ref : String) : PatientState :=
  match st.payments.find? (fun h => h.reference = tx_ref) with
  | none => st
  | some history =>
      if history.status = "SUCCESS" then st
      else
        let st := { st with payments := st.payments.map (fun (h : PaymentRec) =>
          if h.reference = tx_ref then { h with status := "SUCCESS" } else h) }
        let st := { st with consultation_credits :=
          st.consultation_credits + history.package_credits }
        match st.assessment with
        | some a =>
            if a.status = "PENDING_PAYMENT" then finalize_consultation_flow st
            else st
        | none => st

/-! ## Concrete scenario states -/

/-- A generated assessment with all five blocks present. -/
def demo_assessment : Assessment :=
  { symptoms_overview := some ⟨["headache"], 5, "2 days"⟩,
    key_observations := some ⟨"tension headache", "patient reports stress"⟩,
    preliminary_recommendations := some ⟨["Rest well", "Drink water"]⟩,
    otc_suggestions := some ⟨[.dict "Paracetamol" "500mg" "3-4 times daily"]⟩,
    monitoring_advice := some ⟨["Severe headache lasting 3+ days"]⟩ }

/-- A COMPLETED modification session whose medication list triggers the
CRITICAL dangerous-frequency finding (validator verdict DO_NOT_SEND). -/
def C1_session : MSession :=
  { sid := "sess1", created_at := 0, status := .COMPLETED, current_step := .CONFIRM,
    modified_otc_suggestions := some ⟨[.dict "Ibuprofen" "2000mg" "every hour"]⟩,
    modified_recommendations := some ⟨["Rest well"]⟩,
    modified_monitoring_advice := some ⟨["Severe headache lasting 3+ days"]⟩,
    clinician_notes := "", validation_result := none,
    sent_with_warnings := false, warning_override_reason := "" }

/-- Clinician state holding that session on a MODIFIED assessment. -/
def C1_state : ClinState :=
  { assessment_id := "abc123", assessment := demo_assessment,
    assessment_status := "MODIFIED", conversation_status := "PENDING_CLINICIAN_REVIEW",
    availability_status := "AVAILABLE", patient_first_name := "Ada",
    clinician_last_name := "Okafor", mod_sessions := [C1_session], reviews := [],
    patient_msgs := [], patient_pdfs := 0, clinician_sends := 0, validator_calls := 0,
    audit_logs := 0, message_rows := 0, prescription_rows := 0,
    next_session_id := "sess2" }

/-- The state after the clinician sends `send abc123`. -/
def C1_after_send : ClinState := process_clinician_message 10000 C1_state "send abc123"

/-- The state after the clinician then sends `send_anyway abc123 sess1`. -/
def C1_after_send_anyway : ClinState :=
  process_clinician_message 10000 C1_after_send "send_anyway abc123 sess1"

/-- Clinician state for the C10 witness: APPROVED assessment, no
modification session at all. -/
def C10_state : ClinState :=
  { C1_state with assessment_status := "APPROVED", mod_sessions := [] }

/-- The IN_PROGRESS modification session of the C8 scenario, freshly
started at step MEDICATIONS with no block touched yet. -/
def C8_session : MSession :=
  { sid := "sessA", created_at := 9000, status := .IN_PROGRESS, current_step := .MEDICATIONS,
    modified_otc_suggestions := none, modified_recommendations := none,
    modified_monitoring_advice := none, clinician_notes := "", validation_result := none,
    sent_with_warnings := false, warning_override_reason := "" }

/-- Clinician state for the C8 scenario over an arbitrary assessment. -/
def C8_state_of (a : Assessment) : ClinState :=
  { assessment_id := "abc123", assessment := a, assessment_status := "PENDING_REVIEW",
    conversation_status := "PENDING_CLINICIAN_REVIEW", availability_status := "AVAILABLE",
    patient_first_name := "Ada", clinician_last_name := "Okafor",
    mod_sessions := [C8_session], reviews := [], patient_msgs := [], patient_pdfs := 0,
    clinician_sends := 0, validator_calls := 0, audit_logs := 0, message_rows := 0,
    prescription_rows := 0, next_session_id := "sess2" }

/-- Fold a sequence of clinician inbound texts through the handler. -/
def C8_run (a : Assessment) (inputs : List String) : ClinState :=
  inputs.foldl (process_clinician_message 10000) (C8_state_of a)

/-- An assessment whose three content blocks are all present. -/
def C8_assessment_of (sym : Option SymBlock) (obs : Option ObsBlock)
    (b2 : RecsBlock) (b1 : MedsBlock) (b3 : MonBlock) : Assessment :=
  ⟨sym, obs, some b2, some b1, some b3⟩

/-- Intermediate state of the C8 workflow run: the one session at the given
step with the given modified blocks. -/
def C8_mid (sym : Option SymBlock) (obs : Option ObsBlock)
    (b2 : RecsBlock) (b1 : MedsBlock) (b3 : MonBlock)
    (step : WStep) (mo : Option MedsBlock) (mr : Option RecsBlock) (mm : Option MonBlock)
    (sends : Nat) : ClinState :=
  let s : MSession :=
    { sid := "sessA", created_at := 9000, status := .IN_PROGRESS,
      current_step := step, modified_otc_suggestions := mo,
      modified_recommendations := mr, modified_monitoring_advice := mm,
      clinician_notes := "", validation_result := none,
      sent_with_warnings := false, warning_override_reason := "" }
  { assessment_id := "abc123", assessment := C8_assessment_of sym obs b2 b1 b3,
    assessment_status := "PENDING_REVIEW",
    conversation_status := "PENDING_CLINICIAN_REVIEW", availability_status := "AVAILABLE",
    patient_first_name := "Ada", clinician_last_name := "Okafor",
    mod_sessions := [s],
    reviews := [], patient_msgs := [], patient_pdfs := 0,
    clinician_sends := sends, validator_calls := 0, audit_logs := 0, message_rows := 0,
    prescription_rows := 0, next_session_id := "sess2" }

def youngInProgress (now : Nat) (st : ClinState) : List MSession :=
  st.mod_sessions.filter (fun s => s.status = .IN_PROGRESS ∧ now ≤ s.created_at + 3600)

/-- A stale IN_PROGRESS modification session: created at t=0, so at t=7200 it
is one hour past the 1-hour TTL. -/
def C7_stale_session : MSession :=
  { sid := "sessOld", created_at := 0, status := .IN_PROGRESS,
    current_step := .MEDICATIONS, modified_otc_suggestions := none,
    modified_recommendations := none, modified_monitoring_advice := none,
    clinician_notes := "", validation_result := none,
    sent_with_warnings := false, warning_override_reason := "" }

/-- Clinician state holding only the stale session, with assessment `abc123`
awaiting review. -/
def C7_state : ClinState :=
  { assessment_id := "abc123", assessment := demo_assessment,
    assessment_status := "PENDING_REVIEW",
    conversation_status := "PENDING_CLINICIAN_REVIEW",
    availability_status := "AVAILABLE", patient_first_name := "Ada",
    clinician_last_name := "Okafor", mod_sessions := [C7_stale_session],
    reviews := [], patient_msgs := [], patient_pdfs := 0, clinician_sends := 0,
    validator_calls := 0, audit_logs := 0, message_rows := 0,
    prescription_rows := 0, next_session_id := "sessNew" }

/-- The state after the clinician sends `modify abc123` at t=7200. -/
def C7_after_modify : ClinState := process_clinician_message 7200 C7_state "modify abc123"

/-- An oracle for the C2 scenarios (its values are never consulted on the
escalation paths). -/
def C2_oracle : AIOracle :=
  { ai_only_response := some "General wellness tip.",
    first_question := some "How long have you had this?",
    next_question := some "Any other symptoms?",
    assessment_result := none }

/-- An AI-only chat in progress (no alerts, nothing sent yet). -/
def C2_ai_state : PatientState :=
  { conv_status := .AI_ONLY_ACTIVE, mode := "AI_ONLY", chief_complaint := "",
    is_escalated := false, escalation_reason := "", is_paid := false,
    ai_questions_asked := 0, assigned_clinician := none, triage_questions := [],
    next_qid := 0, alerts := [], profile_age := none, profile_gender := none,
    consultation_credits := 0, assessment := none, availability := [],
    payments := [], assignment_rows := 0, outbound := [], clin_notifications := 0,
    message_rows := 0, gen_assessment_requests := 0 }

/-- Profile collection with age and gender recorded, chief complaint next. -/
def C2_profile_state : PatientState :=
  { C2_ai_state with
      conv_status := .AWAITING_PATIENT_PROFILE
      mode := "CLINICIAN"
      profile_age := some 30
      profile_gender := some "FEMALE" }

/-- The next-question text as `_handle_triage_response` computes it: the
generator's output when nonempty, otherwise the deterministic fallback
("Thank you. Can you describe..." when the call fails, "Can you tell me
more..." when it returns blank text). -/
def nextQText (o : AIOracle) : String :=
  match o.next_question with
  | some q => if (strTrim q).isEmpty then
      "Can you tell me more about your symptoms? Any other details that might help?"
    else q
  | none => "Thank you. Can you describe any other symptoms you're experiencing?"

/-- An oracle whose question generator fails (`none`): every C5/C6 call that
consults it must fall back deterministically. -/
def C5_oracle : AIOracle :=
  { ai_only_response := none, first_question := none, next_question := none,
    assessment_result := none }

/-- Mid-triage state: one question asked and already answered (its response
recorded and marked processed), no question pending. -/
def C5_state : PatientState :=
  { C2_ai_state with
      conv_status := .AI_TRIAGE_IN_PROGRESS
      mode := "CLINICIAN"
      chief_complaint := "headache"
      profile_age := some 30
      profile_gender := some "FEMALE"
      ai_questions_asked := 1
      triage_questions :=
        [{ qid := 0, question_order := 1, question_text := "How long have you had this?",
           patient_response := some "Two days", response_processed := true }]
      next_qid := 1 }

/-- The triage loop: fold `_handle_triage_response` over a list of
(per-invocation generator outcome, patient answer) pairs. -/
def run_triage (maxQ : Nat) (st : PatientState) (steps : List (AIOracle × String)) :
    PatientState :=
  steps.foldl (fun s p => handle_triage_response p.1 maxQ s p.2) st

/-- Mid-triage state for the C6 witness: one question asked, still pending. -/
def C6_state : PatientState :=
  { C2_ai_state with
      conv_status := .AI_TRIAGE_IN_PROGRESS
      mode := "CLINICIAN"
      chief_complaint := "headache"
      profile_age := some 30
      profile_gender := some "FEMALE"
      ai_questions_asked := 1
      triage_questions :=
        [{ qid := 0, question_order := 1, question_text := "How long have you had this?",
           patient_response := none, response_processed := false }]
      next_qid := 1 }

/-- The parked-assessment row for the C9 witness. -/
def C9_assess_row : PAssessment :=
  { content := demo_assessment, confidence_score := 1, status := "PENDING_PAYMENT" }

/-- Payment-pending state for the C9 witness: an unsettled reference `tx1`
worth 3 credits, the assessment parked, two clinicians on the roster. -/
def C9_state : PatientState :=
  { C2_ai_state with
      conv_status := .PENDING_PAYMENT
      mode := "CLINICIAN"
      chief_complaint := "headache"
      profile_age := some 30
      profile_gender := some "FEMALE"
      ai_questions_asked := 5
      triage_questions :=
        [{ qid := 0, question_order := 1, question_text := "How long have you had this?",
           patient_response := some "Two days", response_processed := true }]
      next_qid := 1
      assessment := some C9_assess_row
      availability := [{ clinician_id := 7, status := "AVAILABLE",
                         current_patient_count := 2 },
                       { clinician_id := 9, status := "OFF_DUTY",
                         current_patient_count := 0 }]
      payments := [{ reference := "tx1", status := "PENDING", package_credits := 3 }]
      gen_assessment_requests := 1 }

theorem determine_eq_chain (issues : List Issue) :
    determine_severity issues = sevChain (issues.map Issue.severity) := by
  cases issues with
  | nil => rfl
  | cons i t => rfl

theorem sevChain_cons (s : Severity) (rest : List Severity) :
    sevChain (s :: rest) = osMax (sevToOverall s) (sevChain rest) := by
  cases s <;>
    by_cases hc : Severity.CRITICAL ∈ rest <;>
    by_cases hh : Severity.HIGH ∈ rest <;>
    by_cases hm : Severity.MEDIUM ∈ rest <;>
    by_cases hl : Severity.LOW ∈ rest <;>
    simp [sevChain, List.contains_cons, hc, hh, hm, hl, osMax, osRank, sevToOverall]

theorem determine_eq_spec (issues : List Issue) :
    determine_severity issues = spec_overall_severity issues := by
  induction issues with
  | nil => rfl
  | cons i t ih =>
      rw [determine_eq_chain, List.map_cons, sevChain_cons, ← determine_eq_chain, ih]
      rfl

/-- C3: the overall severity returned by `validate_modification` equals the
maximum severity across all issues (CRITICAL > HIGH > MEDIUM > LOW, OK when
there are no issues); the routing recommendation is a pure function of that
severity alone (CRITICAL maps to DO_NOT_SEND, HIGH or MEDIUM to REVIEW,
LOW or OK to SEND); and running the validator twice on identical inputs
yields identical severity and recommendation. -/
theorem C3_severity_max_and_recommendation_pure :
    (∀ issues : List Issue, determine_severity issues = spec_overall_severity issues) ∧
    (∀ (sev : OverallSeverity) (is1 is2 : List Issue),
      get_recommendation sev is1 = get_recommendation sev is2) ∧
    (∀ issues : List Issue,
      get_recommendation .CRITICAL issues = "DO_NOT_SEND" ∧
      get_recommendation .HIGH issues = "REVIEW" ∧
      get_recommendation .MEDIUM issues = "REVIEW" ∧
      get_recommendation .LOW issues = "SEND" ∧
      get_recommendation .OK issues = "SEND") ∧
    (∀ (a : Assessment) (m : ModContent),
      (validate_modification a m).severity = spec_overall_severity (validate_modification a m).issues ∧
      (validate_modification a m).recommendation =
        get_recommendation (validate_modification a m).severity [] ∧
      validate_modification a m = validate_modification a m) := by
  refine ⟨determine_eq_spec, fun sev is1 is2 => rfl, fun issues => ⟨rfl, rfl, rfl, rfl, rfl⟩,
    fun a m => ⟨?_, rfl, rfl⟩⟩
  exact determine_eq_spec _

/-- C4: evaluation of the code at the failing input
Ibuprofen / 2000mg / every hour.  The dangerous-frequency CRITICAL issue is
raised and the recommendation is DO_NOT_SEND, but no dosage-overshoot issue
is raised even though 2000 exceeds 1.5 times the highest safe ibuprofen
dose of 800: the safe-range test accepts any dosage string that merely
contains a safe dose as a substring, and "200" (from the safe dose 200mg)
occurs inside "2000mg", so `is_safe` is true and the overshoot branch is
never reached. -/
theorem C4_ibuprofen_scenario_evaluation :
    strContains "2000mg" (stripUnits "200mg") = true ∧
    check_dosage_safety "ibuprofen" "2000mg" = [] ∧
    ((2000 : ℚ) > 800 * (3 / 2)) ∧
    check_frequency_safety "ibuprofen" "every hour" =
      [{ itype := "medication_safety", severity := .CRITICAL,
         message := "Frequency 'every hour' for ibuprofen is dangerously high",
         suggestion := "Use: 2-3 times daily" }] ∧
    (validate_modification C4_assessment C4_mod).severity = .CRITICAL ∧
    (validate_modification C4_assessment C4_mod).recommendation = "DO_NOT_SEND" ∧
    ((validate_modification C4_assessment C4_mod).issues.filter
      (fun i => strContains i.message "dosage")) = [] := by
  refine ⟨by decide, by decide, by norm_num, by decide, by decide, by decide, by decide⟩

/-- C1 counterexample: a two-command sequence (`send`, then `send_anyway`)
dispatches content whose fresh validation verdict is DO_NOT_SEND to the
patient without any edit to a content block: the `send` step only stores
the validation result and sends the report (no dispatch), and the
`send_anyway` step dispatches unconditionally - it performs no severity
check and no re-validation - while every content block of the session is
unchanged throughout. -/
theorem C1_counterexample :
    (validate_modification demo_assessment C1_session.content).recommendation = "DO_NOT_SEND" ∧
    C1_after_send.patient_msgs = [] ∧
    C1_after_send.validator_calls = 1 ∧
    ((C1_after_send.mod_sessions.map (fun s => s.validation_result)).headD none).map
      ValidationResult.recommendation = some "DO_NOT_SEND" ∧
    C1_after_send_anyway.patient_msgs.length = 1 ∧
    C1_after_send_anyway.assessment_status = "SENT_TO_PATIENT" ∧
    C1_after_send_anyway.validator_calls = 1 ∧
    C1_after_send_anyway.mod_sessions.map MSession.content =
      C1_state.mod_sessions.map MSession.content := by
  refine ⟨by decide, by decide, by decide, by decide, by decide, by decide, by decide, by decide⟩

/-! ## Field lemmas for the clinician-state wrappers -/

@[simp] theorem sendClin_patient_msgs (st : ClinState) :
    (sendClin st).patient_msgs = st.patient_msgs := rfl

@[simp] theorem sendClin_assessment_status (st : ClinState) :
    (sendClin st).assessment_status = st.assessment_status := rfl

@[simp] theorem sendClin_conversation_status (st : ClinState) :
    (sendClin st).conversation_status = st.conversation_status := rfl

@[simp] theorem sendClin_mod_sessions (st : ClinState) :
    (sendClin st).mod_sessions = st.mod_sessions := rfl

@[simp] theorem sendClin_reviews (st : ClinState) :
    (sendClin st).reviews = st.reviews := rfl

@[simp] theorem sendClin_validator_calls (st : ClinState) :
    (sendClin st).validator_calls = st.validator_calls := rfl

@[simp] theorem sendClin_assessment (st : ClinState) :
    (sendClin st).assessment = st.assessment := rfl

@[simp] theorem sendClin_assessment_id (st : ClinState) :
    (sendClin st).assessment_id = st.assessment_id := rfl

@[simp] theorem sendClin_patient_first_name (st : ClinState) :
    (sendClin st).patient_first_name = st.patient_first_name := rfl

@[simp] theorem sendClin_clinician_last_name (st : ClinState) :
    (sendClin st).clinician_last_name = st.clinician_last_name := rfl

@[simp] theorem sendClin_next_session_id (st : ClinState) :
    (sendClin st).next_session_id = st.next_session_id := rfl

@[simp] theorem sendClin_patient_pdfs (st : ClinState) :
    (sendClin st).patient_pdfs = st.patient_pdfs := rfl

@[simp] theorem auditLog_patient_msgs (st : ClinState) :
    (auditLog st).patient_msgs = st.patient_msgs := rfl

@[simp] theorem auditLog_assessment_status (st : ClinState) :
    (auditLog st).assessment_status = st.assessment_status := rfl

@[simp] theorem auditLog_conversation_status (st : ClinState) :
    (auditLog st).conversation_status = st.conversation_status := rfl

@[simp] theorem auditLog_mod_sessions (st : ClinState) :
    (auditLog st).mod_sessions = st.mod_sessions := rfl

@[simp] theorem auditLog_reviews (st : ClinState) :
    (auditLog st).reviews = st.reviews := rfl

@[simp] theorem auditLog_validator_calls (st : ClinState) :
    (auditLog st).validator_calls = st.validator_calls := rfl

@[simp] theorem auditLog_assessment (st : ClinState) :
    (auditLog st).assessment = st.assessment := rfl

@[simp] theorem auditLog_assessment_id (st : ClinState) :
    (auditLog st).assessment_id = st.assessment_id := rfl

@[simp] theorem auditLog_patient_first_name (st : ClinState) :
    (auditLog st).patient_first_name = st.patient_first_name := rfl

@[simp] theorem auditLog_clinician_last_name (st : ClinState) :
    (auditLog st).clinician_last_name = st.clinician_last_name := rfl

@[simp] theorem auditLog_next_session_id (st : ClinState) :
    (auditLog st).next_session_id = st.next_session_id := rfl

@[simp] theorem auditLog_patient_pdfs (st : ClinState) :
    (auditLog st).patient_pdfs = st.patient_pdfs := rfl

@[simp] theorem sendPatient_assessment_status (st : ClinState) (c : String) :
    (sendPatient st c).assessment_status = st.assessment_status := rfl

@[simp] theorem sendPatient_conversation_status (st : ClinState) (c : String) :
    (sendPatient st c).conversation_status = st.conversation_status := rfl

@[simp] theorem sendPatient_mod_sessions (st : ClinState) (c : String) :
    (sendPatient st c).mod_sessions = st.mod_sessions := rfl

@[simp] theorem sendPatient_reviews (st : ClinState) (c : String) :
    (sendPatient st c).reviews = st.reviews := rfl

@[simp] theorem sendPatient_validator_calls (st : ClinState) (c : String) :
    (sendPatient st c).validator_calls = st.validator_calls := rfl

@[simp] theorem sendPatient_assessment (st : ClinState) (c : String) :
    (sendPatient st c).assessment = st.assessment := rfl

@[simp] theorem sendPatient_assessment_id (st : ClinState) (c : String) :
    (sendPatient st c).assessment_id = st.assessment_id := rfl

@[simp] theorem sendPatient_patient_first_name (st : ClinState) (c : String) :
    (sendPatient st c).patient_first_name = st.patient_first_name := rfl

@[simp] theorem sendPatient_clinician_last_name (st : ClinState) (c : String) :
    (sendPatient st c).clinician_last_name = st.clinician_last_name := rfl

@[simp] theorem sendPatient_next_session_id (st : ClinState) (c : String) :
    (sendPatient st c).next_session_id = st.next_session_id := rfl

@[simp] theorem sendPatient_patient_msgs (st : ClinState) (c : String) :
    (sendPatient st c).patient_msgs = st.patient_msgs ++ [c] := rfl

@[simp] theorem updateSession_patient_msgs (st : ClinState) (sid : String) (g : MSession → MSession) :
    (updateSession st sid g).patient_msgs = st.patient_msgs := rfl

@[simp] theorem updateSession_assessment_status (st : ClinState) (sid : String) (g : MSession → MSession) :
    (updateSession st sid g).assessment_status = st.assessment_status := rfl

@[simp] theorem updateSession_conversation_status (st : ClinState) (sid : String) (g : MSession → MSession) :
    (updateSession st sid g).conversation_status = st.conversation_status := rfl

@[simp] theorem updateSession_reviews (st : ClinState) (sid : String) (g : MSession → MSession) :
    (updateSession st sid g).reviews = st.reviews := rfl

@[simp] theorem updateSession_validator_calls (st : ClinState) (sid : String) (g : MSession → MSession) :
    (updateSession st sid g).validator_calls = st.validator_calls := rfl

@[simp] theorem updateSession_assessment (st : ClinState) (sid : String) (g : MSession → MSession) :
    (updateSession st sid g).assessment = st.assessment := rfl

@[simp] theorem updateSession_assessment_id (st : ClinState) (sid : String) (g : MSession → MSession) :
    (updateSession st sid g).assessment_id = st.assessment_id := rfl

@[simp] theorem updateSession_patient_first_name (st : ClinState) (sid : String) (g : MSession → MSession) :
    (updateSession st sid g).patient_first_name = st.patient_first_name := rfl

@[simp] theorem updateSession_clinician_last_name (st : ClinState) (sid : String) (g : MSession → MSession) :
    (updateSession st sid g).clinician_last_name = st.clinician_last_name := rfl

@[simp] theorem updateSession_next_session_id (st : ClinState) (sid : String) (g : MSession → MSession) :
    (updateSession st sid g).next_session_id = st.next_session_id := rfl

@[simp] theorem updateSession_patient_pdfs (st : ClinState) (sid : String) (g : MSession → MSession) :
    (updateSession st sid g).patient_pdfs = st.patient_pdfs := rfl

@[simp] theorem updateSession_mod_sessions (st : ClinState) (sid : String) (g : MSession → MSession) :
    (updateSession st sid g).mod_sessions =
      st.mod_sessions.map (fun s => if s.sid = sid then g s else s) := rfl

@[simp] theorem send_validation_report_patient_msgs (st : ClinState) (v : ValidationResult) :
    (send_validation_report st v).patient_msgs = st.patient_msgs := by
  unfold send_validation_report
  split_ifs <;> simp

@[simp] theorem send_validation_report_assessment_status (st : ClinState) (v : ValidationResult) :
    (send_validation_report st v).assessment_status = st.assessment_status := by
  unfold send_validation_report
  split_ifs <;> simp

@[simp] theorem send_validation_report_conversation_status (st : ClinState) (v : ValidationResult) :
    (send_validation_report st v).conversation_status = st.conversation_status := by
  unfold send_validation_report
  split_ifs <;> simp

@[simp] theorem send_validation_report_mod_sessions (st : ClinState) (v : ValidationResult) :
    (send_validation_report st v).mod_sessions = st.mod_sessions := by
  unfold send_validation_report
  split_ifs <;> simp

@[simp] theorem send_validation_report_reviews (st : ClinState) (v : ValidationResult) :
    (send_validation_report st v).reviews = st.reviews := by
  unfold send_validation_report
  split_ifs <;> simp

@[simp] theorem send_validation_report_validator_calls (st : ClinState) (v : ValidationResult) :
    (send_validation_report st v).validator_calls = st.validator_calls := by
  unfold send_validation_report
  split_ifs <;> simp

@[simp] theorem send_validation_report_assessment (st : ClinState) (v : ValidationResult) :
    (send_validation_report st v).assessment = st.assessment := by
  unfold send_validation_report
  split_ifs <;> simp

theorem finalize_send_some_fields (st : ClinState) (ms : MSession) :
    (finalize_send_to_patient st (some ms)).patient_msgs =
      st.patient_msgs ++ [format_assessment_message_for_patient st
        (pyOr ms.modified_recommendations st.assessment.preliminary_recommendations)
        (pyOr ms.modified_otc_suggestions st.assessment.otc_suggestions)
        (pyOr ms.modified_monitoring_advice st.assessment.monitoring_advice)
        ms.clinician_notes] ∧
    (finalize_send_to_patient st (some ms)).assessment_status = "SENT_TO_PATIENT" ∧
    (finalize_send_to_patient st (some ms)).conversation_status = "DIRECT_MESSAGING" ∧
    (finalize_send_to_patient st (some ms)).mod_sessions = st.mod_sessions ∧
    (finalize_send_to_patient st (some ms)).validator_calls = st.validator_calls := by
  unfold finalize_send_to_patient
  refine ⟨rfl, rfl, rfl, rfl, rfl⟩

theorem finalize_send_none_fields (st : ClinState) :
    (finalize_send_to_patient st none).patient_msgs =
      st.patient_msgs ++ [format_assessment_message_for_patient st
        st.assessment.preliminary_recommendations
        st.assessment.otc_suggestions
        st.assessment.monitoring_advice ""] ∧
    (finalize_send_to_patient st none).assessment_status = "SENT_TO_PATIENT" ∧
    (finalize_send_to_patient st none).conversation_status = "DIRECT_MESSAGING" ∧
    (finalize_send_to_patient st none).mod_sessions = st.mod_sessions ∧
    (finalize_send_to_patient st none).validator_calls = st.validator_calls := by
  unfold finalize_send_to_patient
  refine ⟨rfl, rfl, rfl, rfl, rfl⟩

theorem format_message_congr (st1 st2 : ClinState)
    (ha : st1.assessment = st2.assessment)
    (hp : st1.patient_first_name = st2.patient_first_name)
    (hc : st1.clinician_last_name = st2.clinician_last_name)
    (r : Option RecsBlock) (m : Option MedsBlock) (w : Option MonBlock) (n : String) :
    format_assessment_message_for_patient st1 r m w n =
      format_assessment_message_for_patient st2 r m w n := by
  unfold format_assessment_message_for_patient
  rw [ha, hp, hc]

/-- C1 (amended): on a send attempt that carries a COMPLETED modification
session, the `send` command itself never dispatches in that invocation -
whatever the validation severity, it only stores the result and sends the
report - but the separate `send_anyway` command is an override path that
dispatches the merged content unconditionally: it re-checks nothing (the
validator is not invoked), requires no edit (every session's content
blocks are unchanged), and ignores severity, so a DO_NOT_SEND verdict does
not block dispatch. -/
theorem C1_amended_send_gate :
    (∀ (st : ClinState) (args aid : String) (rest : List String) (m : MSession),
      (strTrim args).isEmpty = false →
      pySplitWs args = aid :: rest →
      strStartsWith st.assessment_id aid = true →
      (st.assessment_status = "APPROVED" ∨ st.assessment_status = "MODIFIED") →
      (st.mod_sessions.filter (fun s => s.status = .COMPLETED)).head? = some m →
      (handle_send st args).patient_msgs = st.patient_msgs ∧
      (handle_send st args).assessment_status = st.assessment_status ∧
      (handle_send st args).mod_sessions.map MSession.content =
        st.mod_sessions.map MSession.content) ∧
    (∀ (st : ClinState) (aid sid : String) (m : MSession),
      get_modification_session st sid = some (some m) →
      get_assessment_found st aid = true →
      (handle_send_anyway st aid sid).patient_msgs =
        st.patient_msgs ++ [format_assessment_message_for_patient st
          (pyOr m.modified_recommendations st.assessment.preliminary_recommendations)
          (pyOr m.modified_otc_suggestions st.assessment.otc_suggestions)
          (pyOr m.modified_monitoring_advice st.assessment.monitoring_advice)
          m.clinician_notes] ∧
      (handle_send_anyway st aid sid).validator_calls = st.validator_calls ∧
      (handle_send_anyway st aid sid).assessment_status = "SENT_TO_PATIENT" ∧
      (handle_send_anyway st aid sid).mod_sessions.map MSession.content =
        st.mod_sessions.map MSession.content) := by
  constructor
  · intro st args aid rest m h1 h2 h3 h4 h5
    have hstatus : ¬ (st.assessment_status ≠ "APPROVED" ∧ st.assessment_status ≠ "MODIFIED") := by
      rcases h4 with h4 | h4 <;> simp [h4]
    unfold handle_send
    rw [h1, h2]
    simp only [Bool.false_eq_true, if_false, h3, if_true, if_neg hstatus, h5]
    refine ⟨by simp, by simp, ?_⟩
    simp only [not_true, if_false, ite_false, send_validation_report_mod_sessions,
      updateSession_mod_sessions, List.map_map]
    apply List.map_congr_left
    intro s _
    by_cases hs : s.sid = m.sid <;> simp [hs, MSession.content, Function.comp]
  · intro st aid sid m h1 h2
    unfold handle_send_anyway
    rw [h1, h2]
    simp only [eq_self_iff_true, not_true, if_false, ite_false]
    refine ⟨rfl, rfl, rfl, ?_⟩
    rw [(finalize_send_some_fields _ m).2.2.2.1]
    simp only [sendClin_mod_sessions, auditLog_mod_sessions, updateSession_mod_sessions,
      List.map_map]
    apply List.map_congr_left
    intro s _
    by_cases hs : s.sid = m.sid <;> simp [hs, MSession.content, Function.comp]

/-- Witness for the C1 amended theorem at the concrete DO_NOT_SEND state. -/
theorem C1_amended_send_gate_witness :
    ((handle_send C1_state "abc123").patient_msgs = C1_state.patient_msgs ∧
      (handle_send C1_state "abc123").assessment_status = C1_state.assessment_status) ∧
    ((handle_send_anyway C1_state "abc123" "sess1").assessment_status = "SENT_TO_PATIENT" ∧
      (handle_send_anyway C1_state "abc123" "sess1").validator_calls =
        C1_state.validator_calls) := by
  have ha := C1_amended_send_gate.1 C1_state "abc123" "abc123" [] C1_session
    (by decide) (by decide) (by decide) (Or.inr (by decide)) (by decide)
  have hb := C1_amended_send_gate.2 C1_state "abc123" "sess1" C1_session
    (by decide) (by decide)
  exact ⟨⟨ha.1, ha.2.1⟩, ⟨hb.2.2.1, hb.2.1⟩⟩

/-- C10: a `send <id>` command on an APPROVED assessment with no COMPLETED
modification session never invokes the validator and dispatches the
formatted original content to the patient within that same invocation,
marking the assessment SENT_TO_PATIENT and the conversation
DIRECT_MESSAGING. -/
theorem C10_send_without_modification (st : ClinState) (args aid : String)
    (rest : List String)
    (h1 : (strTrim args).isEmpty = false)
    (h2 : pySplitWs args = aid :: rest)
    (h3 : strStartsWith st.assessment_id aid = true)
    (h4 : st.assessment_status = "APPROVED")
    (h5 : ∀ s ∈ st.mod_sessions, s.status ≠ ModStatus.COMPLETED) :
    (handle_send st args).validator_calls = st.validator_calls ∧
    (handle_send st args).patient_msgs =
      st.patient_msgs ++ [format_assessment_message_for_patient st
        st.assessment.preliminary_recommendations
        st.assessment.otc_suggestions
        st.assessment.monitoring_advice ""] ∧
    (handle_send st args).assessment_status = "SENT_TO_PATIENT" ∧
    (handle_send st args).conversation_status = "DIRECT_MESSAGING" := by
  have hstatus : ¬ (st.assessment_status ≠ "APPROVED" ∧ st.assessment_status ≠ "MODIFIED") := by
    simp [h4]
  have hfil : (st.mod_sessions.filter (fun s => s.status = ModStatus.COMPLETED)) = [] := by
    rw [List.filter_eq_nil_iff]
    intro s hs
    simpa using h5 s hs
  unfold handle_send
  rw [h1, h2]
  simp only [Bool.false_eq_true, if_false, h3, if_true, if_neg hstatus, hfil]
  exact ⟨rfl, rfl, rfl, rfl⟩

/-- Witness for C10 at the concrete APPROVED state. -/
theorem C10_send_without_modification_witness :
    (handle_send C10_state "abc123").validator_calls = C10_state.validator_calls ∧
    (handle_send C10_state "abc123").assessment_status = "SENT_TO_PATIENT" := by
  have h := C10_send_without_modification C10_state "abc123" "abc123" []
    (by decide) (by decide) (by decide) (by decide) (by decide)
  exact ⟨h.1, h.2.2.1⟩

/-- C8 counterexample: the literal sequence "keep", "keep", "keep", "skip",
"confirm" is a no-op for the modification workflow - the content steps only
accept "1"/"2"/"add"/"3"/"remove" - so no review record is created, the
session stays IN_PROGRESS at step MEDICATIONS, and the assessment status
is untouched. -/
theorem C8_counterexample :
    (C8_run demo_assessment ["keep", "keep", "keep", "skip", "confirm"]).reviews = [] ∧
    (C8_run demo_assessment ["keep", "keep", "keep", "skip", "confirm"]).mod_sessions =
      [C8_session] ∧
    (C8_run demo_assessment ["keep", "keep", "keep", "skip", "confirm"]).assessment_status =
      "PENDING_REVIEW" := by
  exact ⟨by decide, by decide, by decide⟩

/-- C8 (amended): the accepted keep/skip/confirm spellings are "1" (keep)
at the three content steps, "1" (skip) at NOTES and "confirm" at CONFIRM;
with them the workflow produces a MODIFIED review record whose three
content blocks are byte-identical to the original assessment blocks, marks
the session COMPLETED, and sets the assessment status to MODIFIED. -/
theorem C8_amended_keep_sequence (sym : Option SymBlock) (obs : Option ObsBlock)
    (b2 : RecsBlock) (b1 : MedsBlock) (b3 : MonBlock) :
    (C8_run (C8_assessment_of sym obs b2 b1 b3) ["1", "1", "1", "1", "confirm"]).reviews =
      [{ action := "MODIFIED", clinician_notes := "", clinician_risk_level := "MODERATE",
         modified_recommendations := some b2, modified_otc_suggestions := some b1,
         modified_monitoring_advice := some b3 }] ∧
    (C8_run (C8_assessment_of sym obs b2 b1 b3) ["1", "1", "1", "1", "confirm"]).mod_sessions.map
      MSession.status = [.COMPLETED] ∧
    (C8_run (C8_assessment_of sym obs b2 b1 b3) ["1", "1", "1", "1", "confirm"]).assessment_status =
      "MODIFIED" := by
  have h0 : C8_state_of (C8_assessment_of sym obs b2 b1 b3) =
      C8_mid sym obs b2 b1 b3 .MEDICATIONS none none none 0 := rfl
  have h1 : process_clinician_message 10000
      (C8_mid sym obs b2 b1 b3 .MEDICATIONS none none none 0) "1" =
      C8_mid sym obs b2 b1 b3 .RECOMMENDATIONS (some b1) none none 2 := rfl
  have h2 : process_clinician_message 10000
      (C8_mid sym obs b2 b1 b3 .RECOMMENDATIONS (some b1) none none 2) "1" =
      C8_mid sym obs b2 b1 b3 .MONITORING (some b1) (some b2) none 4 := rfl
  have h3 : process_clinician_message 10000
      (C8_mid sym obs b2 b1 b3 .MONITORING (some b1) (some b2) none 4) "1" =
      C8_mid sym obs b2 b1 b3 .NOTES (some b1) (some b2) (some b3) 6 := rfl
  have h4 : process_clinician_message 10000
      (C8_mid sym obs b2 b1 b3 .NOTES (some b1) (some b2) (some b3) 6) "1" =
      C8_mid sym obs b2 b1 b3 .CONFIRM (some b1) (some b2) (some b3) 8 := rfl
  simp only [C8_run, List.foldl_cons, List.foldl_nil, h0, h1, h2, h3, h4]
  exact ⟨rfl, rfl, rfl⟩

theorem get_active_eq (now : Nat) (st : ClinState) :
    get_active_modification_session now st = ((youngInProgress now st).head?, st) := by
  unfold get_active_modification_session youngInProgress
  cases h : (st.mod_sessions.filter
      (fun s => decide (s.status = ModStatus.IN_PROGRESS ∧ now ≤ s.created_at + 3600))).head? with
  | none => rfl
  | some s =>
      have hs : s ∈ st.mod_sessions.filter
          (fun s => decide (s.status = ModStatus.IN_PROGRESS ∧ now ≤ s.created_at + 3600)) :=
        List.mem_of_mem_head? (by rw [h]; simp)
      have hy : now ≤ s.created_at + 3600 :=
        (of_decide_eq_true (List.mem_filter.mp hs).2).2
      have hexp : s.is_expired now = false := by
        simp only [MSession.is_expired, decide_eq_false_iff_not]
        omega
      simp [hexp]

theorem young_length_mono (now nowLater : Nat) (h : now ≤ nowLater) (st : ClinState) :
    (youngInProgress nowLater st).length ≤ (youngInProgress now st).length := by
  unfold youngInProgress
  induction st.mod_sessions with
  | nil => simp
  | cons a t ih =>
      by_cases h1 : (a.status = ModStatus.IN_PROGRESS ∧ nowLater ≤ a.created_at + 3600)
      · have h2 : (a.status = ModStatus.IN_PROGRESS ∧ now ≤ a.created_at + 3600) :=
          ⟨h1.1, le_trans h h1.2⟩
        rw [List.filter_cons_of_pos (by simpa using h1),
          List.filter_cons_of_pos (by simpa using h2)]
        simpa using ih
      · rw [List.filter_cons_of_neg (by simpa using h1)]
        by_cases h2 : (a.status = ModStatus.IN_PROGRESS ∧ now ≤ a.created_at + 3600)
        · rw [List.filter_cons_of_pos (by simpa using h2)]
          refine le_trans ih ?_
          simp
        · rw [List.filter_cons_of_neg (by simpa using h2)]
          exact ih

theorem updateSession_preserves (now : Nat) (st : ClinState) (sid : String)
    (f : MSession → MSession)
    (hf : ∀ s, (f s).created_at = s.created_at ∧
      ((f s).status = ModStatus.IN_PROGRESS → s.status = ModStatus.IN_PROGRESS))
    (hcount : (youngInProgress now st).length ≤ 1)
    (hbound : ∀ s ∈ st.mod_sessions, s.created_at ≤ now) :
    (youngInProgress now (updateSession st sid f)).length ≤ 1 ∧
    ∀ s ∈ (updateSession st sid f).mod_sessions, s.created_at ≤ now := by
  constructor
  · refine le_trans ?_ hcount
    unfold youngInProgress updateSession
    induction st.mod_sessions with
    | nil => simp
    | cons a t ih =>
        have hga : (if a.sid = sid then f a else a).created_at = a.created_at := by
          by_cases h1 : a.sid = sid <;> simp [h1, (hf a).1]
        have hgs : (if a.sid = sid then f a else a).status = ModStatus.IN_PROGRESS →
            a.status = ModStatus.IN_PROGRESS := by
          by_cases h1 : a.sid = sid
          · simpa [h1] using (hf a).2
          · simp [h1]
        rw [List.map_cons]
        by_cases h1 : ((if a.sid = sid then f a else a).status = ModStatus.IN_PROGRESS ∧
            now ≤ (if a.sid = sid then f a else a).created_at + 3600)
        · have h2 : (a.status = ModStatus.IN_PROGRESS ∧ now ≤ a.created_at + 3600) :=
            ⟨hgs h1.1, by rw [← hga]; exact h1.2⟩
          rw [List.filter_cons_of_pos (by simpa using h1),
            List.filter_cons_of_pos (by simpa using h2)]
          simpa using ih
        · rw [List.filter_cons_of_neg (by simpa using h1)]
          by_cases h2 : (a.status = ModStatus.IN_PROGRESS ∧ now ≤ a.created_at + 3600)
          · rw [List.filter_cons_of_pos (by simpa using h2)]
            refine le_trans ih ?_
            simp
          · rw [List.filter_cons_of_neg (by simpa using h2)]
            exact ih
  · intro s hsmem
    unfold updateSession at hsmem
    simp only [List.mem_map] at hsmem
    obtain ⟨s0, hs0, rfl⟩ := hsmem
    by_cases h1 : s0.sid = sid
    · simp only [h1, if_true, (hf s0).1]
      exact hbound s0 hs0
    · simp only [h1, if_false, ite_false]
      exact hbound s0 hs0

theorem young_svr (now : Nat) (x : ClinState) (v : ValidationResult) :
    youngInProgress now (send_validation_report x v) = youngInProgress now x := by
  unfold youngInProgress
  rw [send_validation_report_mod_sessions]

theorem workflow_preserves (now : Nat) (st : ClinState) (resp : String) (ms : MSession)
    (hcount : (youngInProgress now st).length ≤ 1)
    (hbound : ∀ s ∈ st.mod_sessions, s.created_at ≤ now) :
    (youngInProgress now (handle_modification_workflow st resp ms)).length ≤ 1 ∧
    ∀ s ∈ (handle_modification_workflow st resp ms).mod_sessions, s.created_at ≤ now := by
  unfold handle_modification_workflow finalize_modifications send_modification_step
  split <;> dsimp only <;> split_ifs <;> (try split) <;> (try split_ifs) <;>
    first
      | exact ⟨hcount, hbound⟩
      | exact updateSession_preserves now _ ms.sid _ (fun s => ⟨rfl, fun h => h⟩) hcount hbound
      | exact updateSession_preserves now _ ms.sid _ (fun s => ⟨rfl, by simp⟩) hcount hbound

theorem start_modify_preserves (now : Nat) (st : ClinState) (args : String)
    (hempty : youngInProgress now st = [])
    (hbound : ∀ s ∈ st.mod_sessions, s.created_at ≤ now) :
    (youngInProgress now (start_modify_workflow now st args)).length ≤ 1 ∧
    ∀ s ∈ (start_modify_workflow now st args).mod_sessions, s.created_at ≤ now := by
  have hcount : (youngInProgress now st).length ≤ 1 := by rw [hempty]; simp
  have h0 : (youngInProgress now st).length = 0 := by rw [hempty]; rfl
  unfold start_modify_workflow send_modification_step
  dsimp only
  split_ifs <;> (try split) <;> (try split_ifs) <;>
    first
      | exact ⟨hcount, hbound⟩
      | (constructor
         · show (List.filter _ (_ :: st.mod_sessions)).length ≤ 1
           rw [List.filter_cons]
           unfold youngInProgress at h0
           split_ifs <;> simp_all
         · intro s hs
           rcases List.mem_cons.mp hs with h | h
           · subst h; exact Nat.le_refl now
           · exact hbound s h)

theorem svr_upd_preserves (now : Nat) (st : ClinState) (sid : String)
    (f : MSession → MSession) (v : ValidationResult)
    (hf : ∀ s, (f s).created_at = s.created_at ∧
      ((f s).status = ModStatus.IN_PROGRESS → s.status = ModStatus.IN_PROGRESS))
    (hcount : (youngInProgress now st).length ≤ 1)
    (hbound : ∀ s ∈ st.mod_sessions, s.created_at ≤ now) :
    (youngInProgress now (send_validation_report (updateSession st sid f) v)).length ≤ 1 ∧
    ∀ s ∈ (send_validation_report (updateSession st sid f) v).mod_sessions,
      s.created_at ≤ now := by
  have h := updateSession_preserves now st sid f hf hcount hbound
  constructor
  · rw [young_svr]
    exact h.1
  · intro s hs
    rw [send_validation_report_mod_sessions] at hs
    exact h.2 s hs

theorem handle_send_preserves (now : Nat) (st : ClinState) (args : String)
    (hcount : (youngInProgress now st).length ≤ 1)
    (hbound : ∀ s ∈ st.mod_sessions, s.created_at ≤ now) :
    (youngInProgress now (handle_send st args)).length ≤ 1 ∧
    ∀ s ∈ (handle_send st args).mod_sessions, s.created_at ≤ now := by
  unfold handle_send
  dsimp only
  split_ifs <;> (try split) <;> (try split_ifs) <;> (try split) <;>
    first
      | exact ⟨hcount, hbound⟩
      | exact svr_upd_preserves now _ _ _ _ (fun s => ⟨rfl, fun h => h⟩) hcount hbound

theorem handle_send_anyway_preserves (now : Nat) (st : ClinState) (a b : String)
    (hcount : (youngInProgress now st).length ≤ 1)
    (hbound : ∀ s ∈ st.mod_sessions, s.created_at ≤ now) :
    (youngInProgress now (handle_send_anyway st a b)).length ≤ 1 ∧
    ∀ s ∈ (handle_send_anyway st a b).mod_sessions, s.created_at ≤ now := by
  unfold handle_send_anyway
  split <;> (try split_ifs) <;> (try split) <;>
    first
      | exact ⟨hcount, hbound⟩
      | exact updateSession_preserves now _ _ _ (fun s => ⟨rfl, fun h => h⟩) hcount hbound

theorem handle_confirm_send_preserves (now : Nat) (st : ClinState) (a b : String)
    (hcount : (youngInProgress now st).length ≤ 1)
    (hbound : ∀ s ∈ st.mod_sessions, s.created_at ≤ now) :
    (youngInProgress now (handle_confirm_send st a b)).length ≤ 1 ∧
    ∀ s ∈ (handle_confirm_send st a b).mod_sessions, s.created_at ≤ now := by
  unfold handle_confirm_send
  split <;> (try split_ifs) <;> (try split) <;> exact ⟨hcount, hbound⟩

theorem handle_approve_preserves (now : Nat) (st : ClinState) (args : String)
    (hcount : (youngInProgress now st).length ≤ 1)
    (hbound : ∀ s ∈ st.mod_sessions, s.created_at ≤ now) :
    (youngInProgress now (handle_approve st args)).length ≤ 1 ∧
    ∀ s ∈ (handle_approve st args).mod_sessions, s.created_at ≤ now := by
  unfold handle_approve
  split_ifs <;> (try split) <;> (try split_ifs) <;> exact ⟨hcount, hbound⟩

theorem handle_reject_preserves (now : Nat) (st : ClinState) (args : String)
    (hcount : (youngInProgress now st).length ≤ 1)
    (hbound : ∀ s ∈ st.mod_sessions, s.created_at ≤ now) :
    (youngInProgress now (handle_reject st args)).length ≤ 1 ∧
    ∀ s ∈ (handle_reject st args).mod_sessions, s.created_at ≤ now := by
  unfold handle_reject
  split_ifs <;> (try split) <;> (try split_ifs) <;> exact ⟨hcount, hbound⟩

theorem handle_message_preserves (now : Nat) (st : ClinState) (args : String)
    (hcount : (youngInProgress now st).length ≤ 1)
    (hbound : ∀ s ∈ st.mod_sessions, s.created_at ≤ now) :
    (youngInProgress now (handle_message st args)).length ≤ 1 ∧
    ∀ s ∈ (handle_message st args).mod_sessions, s.created_at ≤ now := by
  unfold handle_message
  split_ifs <;> (try split) <;> (try split_ifs) <;> exact ⟨hcount, hbound⟩

theorem handle_close_preserves (now : Nat) (st : ClinState) (args : String)
    (hcount : (youngInProgress now st).length ≤ 1)
    (hbound : ∀ s ∈ st.mod_sessions, s.created_at ≤ now) :
    (youngInProgress now (handle_close st args)).length ≤ 1 ∧
    ∀ s ∈ (handle_close st args).mod_sessions, s.created_at ≤ now := by
  unfold handle_close
  dsimp only
  split_ifs <;> (try split) <;> (try split_ifs) <;> exact ⟨hcount, hbound⟩

theorem handle_status_preserves (now : Nat) (st : ClinState) (args : String)
    (hcount : (youngInProgress now st).length ≤ 1)
    (hbound : ∀ s ∈ st.mod_sessions, s.created_at ≤ now) :
    (youngInProgress now (handle_status st args)).length ≤ 1 ∧
    ∀ s ∈ (handle_status st args).mod_sessions, s.created_at ≤ now := by
  unfold handle_status
  dsimp only
  split_ifs <;> (try split) <;> (try split_ifs) <;> exact ⟨hcount, hbound⟩

theorem route_command_preserves (now : Nat) (st : ClinState) (command args : String)
    (hempty : youngInProgress now st = [])
    (hbound : ∀ s ∈ st.mod_sessions, s.created_at ≤ now) :
    (youngInProgress now (route_command now st command args)).length ≤ 1 ∧
    ∀ s ∈ (route_command now st command args).mod_sessions, s.created_at ≤ now := by
  have hcount : (youngInProgress now st).length ≤ 1 := by rw [hempty]; simp
  unfold route_command
  by_cases h1 : command = "send_anyway"
  · rw [if_pos h1]
    cases hp : pySplitWs args with
    | nil => exact ⟨hcount, hbound⟩
    | cons p1 rest =>
        cases rest with
        | nil => exact ⟨hcount, hbound⟩
        | cons p2 t => exact handle_send_anyway_preserves now st p1 p2 hcount hbound
  rw [if_neg h1]
  by_cases h2 : command = "confirm_send"
  · rw [if_pos h2]
    cases hp : pySplitWs args with
    | nil => exact ⟨hcount, hbound⟩
    | cons p1 rest =>
        cases rest with
        | nil => exact ⟨hcount, hbound⟩
        | cons p2 t => exact handle_confirm_send_preserves now st p1 p2 hcount hbound
  rw [if_neg h2]
  by_cases h3 : command = "help"
  · rw [if_pos h3]
    exact ⟨hcount, hbound⟩
  rw [if_neg h3]
  by_cases h4 : command = "pending"
  · rw [if_pos h4]
    exact ⟨hcount, hbound⟩
  rw [if_neg h4]
  by_cases h5 : command = "modify"
  · rw [if_pos h5]
    exact start_modify_preserves now st args hempty hbound
  rw [if_neg h5]
  by_cases h6 : command = "escalations"
  · rw [if_pos h6]
    exact ⟨hcount, hbound⟩
  rw [if_neg h6]
  by_cases h7 : command = "patients"
  · rw [if_pos h7]
    exact ⟨hcount, hbound⟩
  rw [if_neg h7]
  by_cases h8 : command = "approve"
  · rw [if_pos h8]
    exact handle_approve_preserves now st args hcount hbound
  rw [if_neg h8]
  by_cases h9 : command = "reject"
  · rw [if_pos h9]
    exact handle_reject_preserves now st args hcount hbound
  rw [if_neg h9]
  by_cases h10 : command = "send"
  · rw [if_pos h10]
    exact handle_send_preserves now st args hcount hbound
  rw [if_neg h10]
  by_cases h11 : command = "message"
  · rw [if_pos h11]
    exact handle_message_preserves now st args hcount hbound
  rw [if_neg h11]
  by_cases h12 : command = "status"
  · rw [if_pos h12]
    exact handle_status_preserves now st args hcount hbound
  rw [if_neg h12]
  by_cases h13 : command = "close" ∨ command = "discharge"
  · rw [if_pos h13]
    exact handle_close_preserves now st args hcount hbound
  rw [if_neg h13]
  exact ⟨hcount, hbound⟩

theorem process_preserves (now : Nat) (st : ClinState) (body : String)
    (hcount : (youngInProgress now st).length ≤ 1)
    (hbound : ∀ s ∈ st.mod_sessions, s.created_at ≤ now) :
    (youngInProgress now (process_clinician_message now st body)).length ≤ 1 ∧
    ∀ s ∈ (process_clinician_message now st body).mod_sessions, s.created_at ≤ now := by
  unfold process_clinician_message
  rw [get_active_eq]
  cases hh : (youngInProgress now st).head? with
  | some ms => exact workflow_preserves now st _ ms hcount hbound
  | none =>
      have hempty : youngInProgress now st = [] := List.head?_eq_none_iff.mp hh
      exact route_command_preserves now _ _ _ hempty hbound

/-- C7 counterexample: a clinician whose only session is IN_PROGRESS and one
hour past its TTL accesses the workflow (`modify abc123` at t=7200). The
access does not mark the stale row EXPIRED - the lookup already filters to
sessions younger than one hour, so its `is_expired` branch can never fire and
the lookup mutates nothing - and starting the new modification leaves both
rows IN_PROGRESS: two IN_PROGRESS sessions now coexist for the clinician,
the stale one still unmarked although its TTL elapsal is observable. -/
theorem C7_counterexample :
    (get_active_modification_session 7200 C7_state).2 = C7_state ∧
    (C7_after_modify.mod_sessions.filter
      (fun s => s.status = ModStatus.IN_PROGRESS)).length = 2 ∧
    C7_stale_session ∈ C7_after_modify.mod_sessions ∧
    C7_stale_session.status = ModStatus.IN_PROGRESS ∧
    C7_stale_session.is_expired 7200 = true := by
  exact ⟨rfl, by decide, by decide, by decide, by decide⟩

/-- C7 (amended): the invariant the code maintains is windowed, not global.
`_get_active_modification_session` never mutates any row (its EXPIRED-marking
branch is dead code, since the query filters to sessions created within the
last hour); advancing the clock never increases the number of in-window
IN_PROGRESS sessions; and every handler invocation preserves "at most one
IN_PROGRESS session younger than one hour" together with the bound that all
rows were created in the past. Stale IN_PROGRESS rows persist unmarked
forever, so only this 1-hour-window version of "at most one IN_PROGRESS
session per clinician" holds. -/
theorem C7_amended_windowed_invariant (now nowLater : Nat) (st : ClinState)
    (body : String) (hlater : now ≤ nowLater)
    (hcount : (youngInProgress now st).length ≤ 1)
    (hbound : ∀ s ∈ st.mod_sessions, s.created_at ≤ now) :
    (get_active_modification_session now st).2 = st ∧
    (youngInProgress nowLater st).length ≤ 1 ∧
    (youngInProgress now (process_clinician_message now st body)).length ≤ 1 ∧
    ∀ s ∈ (process_clinician_message now st body).mod_sessions,
      s.created_at ≤ now := by
  refine ⟨?_, ?_, ?_, ?_⟩
  · rw [get_active_eq]
  · exact le_trans (young_length_mono now nowLater hlater st) hcount
  · exact (process_preserves now st body hcount hbound).1
  · exact (process_preserves now st body hcount hbound).2

/-- Witness for the amended C7 invariant: the stale-session state at t=7200,
processing `modify abc123`, with the clock then advanced to t=9999. -/
theorem C7_amended_windowed_invariant_witness :
    (get_active_modification_session 7200 C7_state).2 = C7_state ∧
    (youngInProgress 9999 C7_state).length ≤ 1 ∧
    (youngInProgress 7200
      (process_clinician_message 7200 C7_state "modify abc123")).length ≤ 1 ∧
    ∀ s ∈ (process_clinician_message 7200 C7_state "modify abc123").mod_sessions,
      s.created_at ≤ 7200 :=
  C7_amended_windowed_invariant 7200 9999 C7_state "modify abc123"
    (by decide) (by decide) (by decide)

@[simp] theorem sendP_alerts (st : PatientState) (c : String) :
    (sendP st c).alerts = st.alerts := rfl

@[simp] theorem sendP_conv (st : PatientState) (c : String) :
    (sendP st c).conv_status = st.conv_status := rfl

@[simp] theorem sendP_outbound (st : PatientState) (c : String) :
    (sendP st c).outbound = st.outbound ++ [c] := rfl

@[simp] theorem saveMsgRow_alerts (st : PatientState) :
    (saveMsgRow st).alerts = st.alerts := rfl

@[simp] theorem saveMsgRow_conv (st : PatientState) :
    (saveMsgRow st).conv_status = st.conv_status := rfl

@[simp] theorem saveMsgRow_outbound (st : PatientState) :
    (saveMsgRow st).outbound = st.outbound := rfl

theorem assign_clinician_alerts (st : PatientState) :
    (assign_clinician st).alerts = st.alerts := by
  unfold assign_clinician
  dsimp only
  split <;> rfl

theorem finalize_alerts (st : PatientState) :
    (finalize_consultation_flow st).alerts = st.alerts := by
  unfold finalize_consultation_flow
  split_ifs with h
  · simp [assign_clinician_alerts]
  · rfl

theorem generate_assessment_alerts (o : AIOracle) (st : PatientState) :
    (generate_assessment o st).alerts = st.alerts := by
  unfold generate_assessment
  cases o.assessment_result with
  | none => rfl
  | some r =>
      dsimp only
      split_ifs with h
      · simp [finalize_alerts]
      · rfl

theorem handle_triage_response_alerts (o : AIOracle) (maxQ : Nat) (st : PatientState)
    (msg : String) : (handle_triage_response o maxQ st msg).alerts = st.alerts := by
  unfold handle_triage_response
  split_ifs with h1
  · rfl
  · dsimp only
    split
    · rw [generate_assessment_alerts]
      split <;> rfl
    · simp only [saveMsgRow_alerts, sendP_alerts]
      split <;> rfl

/-- C2 counterexample: the red-flag message "I have severe chest pain"
processed in the non-terminal state AI_ONLY_ACTIVE creates no
EscalationAlert at all in that handler invocation - it merely moves the
conversation to ESCALATION_CONSENT - and an outbound message (the consent
prompt) is sent in that same invocation, so no CRITICAL alert precedes it. -/
theorem C2_counterexample :
    check_red_flags "I have severe chest pain" = true ∧
    (route_message C2_oracle 5 C2_ai_state "I have severe chest pain").alerts = [] ∧
    (route_message C2_oracle 5 C2_ai_state "I have severe chest pain").conv_status =
      ConvStatus.ESCALATION_CONSENT ∧
    (route_message C2_oracle 5 C2_ai_state "I have severe chest pain").outbound =
      ["[ESCALATION CONSENT PROMPT]"] := by
  exact ⟨by decide, by decide, by decide, by decide⟩

/-- C2 (amended): a CRITICAL EscalationAlert is created only on the
chief-complaint edge of profile collection. When age and gender are on file
and a message longer than three characters matches a red-flag keyword,
`_handle_escalation` appends the CRITICAL alert and sends nothing to the
patient in that invocation. In AI_ONLY_ACTIVE the same red-flag message
instead moves the conversation to ESCALATION_CONSENT, sends the consent
prompt, and creates no alert; in AI_TRIAGE_IN_PROGRESS red flags are not
checked and the alert list is never touched. -/
theorem C2_amended_alert_scope (o : AIOracle) (maxQ : Nat) (st : PatientState)
    (msg : String) (a : Nat) (g : String)
    (hrf : check_red_flags msg = true) :
    (st.conv_status = ConvStatus.AWAITING_PATIENT_PROFILE →
      st.profile_age = some a → st.profile_gender = some g → msg.length > 3 →
      (route_message o maxQ st msg).alerts = st.alerts ++
        [{ alert_status := "PENDING", alert_message := "Red flag: " ++ msg,
           alert_severity := "CRITICAL" }] ∧
      (route_message o maxQ st msg).outbound = st.outbound ∧
      (route_message o maxQ st msg).conv_status = ConvStatus.ESCALATED) ∧
    (st.conv_status = ConvStatus.AI_ONLY_ACTIVE →
      (route_message o maxQ st msg).alerts = st.alerts ∧
      (route_message o maxQ st msg).conv_status = ConvStatus.ESCALATION_CONSENT ∧
      (route_message o maxQ st msg).outbound =
        st.outbound ++ ["[ESCALATION CONSENT PROMPT]"]) ∧
    (st.conv_status = ConvStatus.AI_TRIAGE_IN_PROGRESS →
      (route_message o maxQ st msg).alerts = st.alerts) := by
  have hgr : ¬ (strLower msg = "hi" ∨ strLower msg = "hello" ∨ strLower msg = "hey") := by
    unfold check_red_flags at hrf
    rintro (h | h | h) <;> rw [h] at hrf <;> exact absurd hrf (by decide)
  refine ⟨?_, ?_, ?_⟩
  · intro h1 h2 h3 h4
    unfold route_message handle_profile_collection profile_gender_and_chief
    rw [h1, h2, h3]
    dsimp only
    rw [if_pos h4, if_neg hgr, if_pos hrf]
    unfold handle_escalation
    dsimp only
    cases st.assigned_clinician <;> exact ⟨rfl, rfl, rfl⟩
  · intro h1
    unfold route_message handle_ai_only_chat
    rw [h1]
    dsimp only
    by_cases hd : user_requesting_doctor msg = true
    · rw [if_pos hd]
      exact ⟨rfl, rfl, rfl⟩
    · rw [if_neg hd, if_pos hrf]
      exact ⟨rfl, rfl, rfl⟩
  · intro h1
    unfold route_message
    rw [h1]
    exact handle_triage_response_alerts o maxQ st msg

/-- Witness for the amended C2 theorem: the chief-complaint edge with age 30
and gender FEMALE on file, message "I have severe chest pain". -/
theorem C2_amended_alert_scope_witness :
    (route_message C2_oracle 5 C2_profile_state "I have severe chest pain").alerts =
      C2_profile_state.alerts ++
        [{ alert_status := "PENDING",
           alert_message := "Red flag: I have severe chest pain",
           alert_severity := "CRITICAL" }] ∧
    (route_message C2_oracle 5 C2_profile_state "I have severe chest pain").outbound =
      C2_profile_state.outbound ∧
    (route_message C2_oracle 5 C2_profile_state "I have severe chest pain").conv_status =
      ConvStatus.ESCALATED :=
  (C2_amended_alert_scope C2_oracle 5 C2_profile_state "I have severe chest pain"
    30 "FEMALE" (by decide)).1 rfl rfl rfl (by decide)

/-- C5 counterexample: with the pending question's answer already recorded
(no unprocessed question remains), re-delivering the identical text "Two
days" is not rejected as a duplicate: the handler appends a fresh triage
question row, sends one more outbound message, saves one more message row,
and advances the asked-question count. -/
theorem C5_counterexample :
    C5_state.triage_questions.all (fun q => q.response_processed) = true ∧
    (route_message C5_oracle 5 C5_state "Two days").triage_questions.length =
      C5_state.triage_questions.length + 1 ∧
    (route_message C5_oracle 5 C5_state "Two days").outbound =
      ["Thank you. Can you describe any other symptoms you're experiencing?"] ∧
    (route_message C5_oracle 5 C5_state "Two days").message_rows =
      C5_state.message_rows + 1 ∧
    (route_message C5_oracle 5 C5_state "Two days").ai_questions_asked = 2 := by
  exact ⟨by decide, by decide, by decide, by decide, by decide⟩

/-- C5 (amended): re-delivery is not detected. When no unprocessed question
remains (the pending question's answer is already recorded) and the count is
still below the maximum, `_handle_triage_response` leaves every stored
answer untouched but still advances the asked-question count, appends a
fresh question row (numbered two past the old count), sends that question to
the patient and saves a message row; the only duplicate-safety that holds is
that recorded responses are never overwritten. -/
theorem C5_amended_duplicate_advances (o : AIOracle) (maxQ : Nat) (st : PatientState)
    (msg : String)
    (hconv : st.conv_status = ConvStatus.AI_TRIAGE_IN_PROGRESS)
    (hne : (strTrim msg).isEmpty = false)
    (hall : st.triage_questions.filter (fun q => ¬ q.response_processed) = [])
    (hlt : st.ai_questions_asked + 1 < maxQ) :
    (route_message o maxQ st msg).triage_questions =
      st.triage_questions ++
        [{ qid := st.next_qid, question_order := st.ai_questions_asked + 2,
           question_text := nextQText o, patient_response := none,
           response_processed := false }] ∧
    (route_message o maxQ st msg).outbound = st.outbound ++ [nextQText o] ∧
    (route_message o maxQ st msg).message_rows = st.message_rows + 1 ∧
    (route_message o maxQ st msg).ai_questions_asked = st.ai_questions_asked + 1 := by
  unfold route_message
  rw [hconv]
  unfold handle_triage_response
  rw [if_neg (by rw [hne]; exact Bool.false_ne_true)]
  rw [hall]
  dsimp only [minByOrder]
  rw [if_neg (by omega : ¬ st.ai_questions_asked + 1 ≥ maxQ)]
  unfold nextQText
  cases o.next_question with
  | none => exact ⟨rfl, rfl, rfl, rfl⟩
  | some q =>
      dsimp only
      split_ifs with hq
      · exact ⟨rfl, rfl, rfl, rfl⟩
      · exact ⟨rfl, rfl, rfl, rfl⟩

/-- Witness for the amended C5 theorem: the answered-question state,
duplicate text "Two days", failing generator, maximum 5. -/
theorem C5_amended_duplicate_advances_witness :
    (route_message C5_oracle 5 C5_state "Two days").triage_questions =
      C5_state.triage_questions ++
        [{ qid := C5_state.next_qid, question_order := C5_state.ai_questions_asked + 2,
           question_text := nextQText C5_oracle, patient_response := none,
           response_processed := false }] ∧
    (route_message C5_oracle 5 C5_state "Two days").outbound =
      C5_state.outbound ++ [nextQText C5_oracle] ∧
    (route_message C5_oracle 5 C5_state "Two days").message_rows =
      C5_state.message_rows + 1 ∧
    (route_message C5_oracle 5 C5_state "Two days").ai_questions_asked =
      C5_state.ai_questions_asked + 1 :=
  C5_amended_duplicate_advances C5_oracle 5 C5_state "Two days"
    rfl (by decide) (by decide) (by decide)

theorem finalize_progress_fields (st : PatientState) :
    (finalize_consultation_flow st).ai_questions_asked = st.ai_questions_asked ∧
    (finalize_consultation_flow st).gen_assessment_requests = st.gen_assessment_requests := by
  unfold finalize_consultation_flow
  split_ifs with h
  · unfold assign_clinician
    dsimp only
    split <;> exact ⟨rfl, rfl⟩
  · exact ⟨rfl, rfl⟩

theorem generate_assessment_progress (o : AIOracle) (st : PatientState) :
    (generate_assessment o st).ai_questions_asked = st.ai_questions_asked ∧
    (generate_assessment o st).gen_assessment_requests = st.gen_assessment_requests + 1 := by
  unfold generate_assessment
  cases o.assessment_result with
  | none => exact ⟨rfl, rfl⟩
  | some r =>
      dsimp only
      split_ifs with h
      · have hf := finalize_progress_fields (sendP
          { st with
              gen_assessment_requests := st.gen_assessment_requests + 1
              assessment := some { content := r.1, confidence_score := r.2,
                                   status := "PENDING_PAYMENT" } }
          (format_patient_summary r.1))
        exact ⟨hf.1, hf.2⟩
      · exact ⟨rfl, rfl⟩

theorem triage_step_below (o : AIOracle) (maxQ : Nat) (st : PatientState) (msg : String)
    (hne : (strTrim msg).isEmpty = false)
    (hlt : st.ai_questions_asked + 1 < maxQ) :
    (handle_triage_response o maxQ st msg).ai_questions_asked =
      st.ai_questions_asked + 1 ∧
    (handle_triage_response o maxQ st msg).gen_assessment_requests =
      st.gen_assessment_requests ∧
    (handle_triage_response o maxQ st msg).triage_questions.length =
      st.triage_questions.length + 1 := by
  unfold handle_triage_response
  rw [if_neg (by rw [hne]; exact Bool.false_ne_true)]
  dsimp only
  cases hmb : minByOrder (st.triage_questions.filter (fun q => ¬ q.response_processed)) with
  | none =>
      rw [if_neg (by omega : ¬ st.ai_questions_asked + 1 ≥ maxQ)]
      refine ⟨rfl, rfl, ?_⟩
      simp [saveMsgRow, sendP]
  | some lq =>
      dsimp only
      rw [if_neg (by omega : ¬ st.ai_questions_asked + 1 ≥ maxQ)]
      refine ⟨rfl, rfl, ?_⟩
      simp [saveMsgRow, sendP]

theorem triage_step_at_max (o : AIOracle) (maxQ : Nat) (st : PatientState) (msg : String)
    (hne : (strTrim msg).isEmpty = false)
    (hge : maxQ ≤ st.ai_questions_asked + 1) :
    (handle_triage_response o maxQ st msg).ai_questions_asked =
      st.ai_questions_asked + 1 ∧
    (handle_triage_response o maxQ st msg).gen_assessment_requests =
      st.gen_assessment_requests + 1 := by
  unfold handle_triage_response
  rw [if_neg (by rw [hne]; exact Bool.false_ne_true)]
  dsimp only
  cases hmb : minByOrder (st.triage_questions.filter (fun q => ¬ q.response_processed)) with
  | none =>
      rw [if_pos (by omega : st.ai_questions_asked + 1 ≥ maxQ)]
      exact generate_assessment_progress o _
  | some lq =>
      dsimp only
      rw [if_pos (by omega : st.ai_questions_asked + 1 ≥ maxQ)]
      exact generate_assessment_progress o _

theorem run_triage_below (maxQ : Nat) (steps : List (AIOracle × String))
    (st : PatientState)
    (hne : ∀ p ∈ steps, (strTrim p.2).isEmpty = false)
    (hlt : st.ai_questions_asked + steps.length < maxQ) :
    (run_triage maxQ st steps).ai_questions_asked =
      st.ai_questions_asked + steps.length ∧
    (run_triage maxQ st steps).gen_assessment_requests =
      st.gen_assessment_requests ∧
    (run_triage maxQ st steps).triage_questions.length =
      st.triage_questions.length + steps.length := by
  induction steps generalizing st with
  | nil => exact ⟨rfl, rfl, rfl⟩
  | cons p t ih =>
      rw [show run_triage maxQ st (p :: t) =
        run_triage maxQ (handle_triage_response p.1 maxQ st p.2) t from rfl]
      have hb : st.ai_questions_asked + 1 < maxQ := by
        simp only [List.length_cons] at hlt
        omega
      have hstep := triage_step_below p.1 maxQ st p.2 (hne p (List.mem_cons_self p t)) hb
      have hlt2 : (handle_triage_response p.1 maxQ st p.2).ai_questions_asked + t.length
          < maxQ := by
        rw [hstep.1]
        simp only [List.length_cons] at hlt
        omega
      have iht := ih (handle_triage_response p.1 maxQ st p.2)
        (fun q hq => hne q (List.mem_cons_of_mem p hq)) hlt2
      refine ⟨?_, ?_, ?_⟩
      · rw [iht.1, hstep.1]
        simp only [List.length_cons]
        omega
      · rw [iht.2.1, hstep.2.1]
      · rw [iht.2.2, hstep.2.2]
        simp only [List.length_cons]
        omega

/-- C6: the triage loop terminates after exactly `maxQ` answered questions,
whatever each invocation's generator does. Any run of nonempty answers that
stays below the maximum leaves assessment generation unrequested, advances
the asked-question count by one per answer, and appends one question row per
answer (a generator failure or blank output substitutes the deterministic
fallback, so the count never stalls); the answer that reaches the maximum
makes that same invocation request assessment generation synchronously. -/
theorem C6_triage_loop_termination (maxQ : Nat) (steps : List (AIOracle × String))
    (o : AIOracle) (msg : String) (st : PatientState)
    (hne : ∀ p ∈ steps, (strTrim p.2).isEmpty = false)
    (hne2 : (strTrim msg).isEmpty = false)
    (hcount : st.ai_questions_asked + steps.length + 1 = maxQ) :
    (run_triage maxQ st steps).ai_questions_asked + 1 = maxQ ∧
    (run_triage maxQ st steps).gen_assessment_requests =
      st.gen_assessment_requests ∧
    (run_triage maxQ st steps).triage_questions.length =
      st.triage_questions.length + steps.length ∧
    (handle_triage_response o maxQ (run_triage maxQ st steps) msg).ai_questions_asked
      = maxQ ∧
    (handle_triage_response o maxQ (run_triage maxQ st steps) msg).gen_assessment_requests
      = st.gen_assessment_requests + 1 := by
  have hrun := run_triage_below maxQ steps st hne (by omega)
  have hfin := triage_step_at_max o maxQ (run_triage maxQ st steps) msg hne2
    (by rw [hrun.1]; omega)
  refine ⟨by rw [hrun.1]; omega, hrun.2.1, hrun.2.2, by rw [hfin.1, hrun.1]; omega, ?_⟩
  rw [hfin.2, hrun.2.1]

/-- Witness for C6: maximum 3, starting with one question asked, one
further answer processed by a failing generator, then the final answer. -/
theorem C6_triage_loop_termination_witness :
    (run_triage 3 C6_state [(C5_oracle, "Two days")]).ai_questions_asked + 1 = 3 ∧
    (run_triage 3 C6_state [(C5_oracle, "Two days")]).gen_assessment_requests =
      C6_state.gen_assessment_requests ∧
    (run_triage 3 C6_state [(C5_oracle, "Two days")]).triage_questions.length =
      C6_state.triage_questions.length + [(C5_oracle, "Two days")].length ∧
    (handle_triage_response C5_oracle 3
      (run_triage 3 C6_state [(C5_oracle, "Two days")]) "No other symptoms").ai_questions_asked = 3 ∧
    (handle_triage_response C5_oracle 3
      (run_triage 3 C6_state [(C5_oracle, "Two days")]) "No other symptoms").gen_assessment_requests =
      C6_state.gen_assessment_requests + 1 :=
  C6_triage_loop_termination 3 [(C5_oracle, "Two days")] C5_oracle "No other symptoms"
    C6_state (by decide) (by decide) (by decide)

/-- C9: a payment-confirmed event for the reference of a parked assessment
resumes the consultation through the same finalize-and-assign path as the
credit-available branch. With the reference found unsettled, the assessment
in PENDING_PAYMENT, the credited balance positive, and a clinician row
selected by the availability query, `activate_subscription` equals
`finalize_consultation_flow` on the credited state, and the result is: the
conversation in PENDING_CLINICIAN_REVIEW and paid, the assessment moved to
PENDING_REVIEW, the cheapest available clinician assigned - while the triage
rows, the asked-question count and the assessment-generation request count
are all untouched, so the triage loop is not repeated. -/
theorem C9_payment_resumes_via_finalize (st : PatientState) (tx : String)
    (h : PaymentRec) (a : PAssessment) (av : ClinAvail)
    (hfind : st.payments.find? (fun p => p.reference = tx) = some h)
    (hpend : ¬ h.status = "SUCCESS")
    (hassess : st.assessment = some a)
    (hstat : a.status = "PENDING_PAYMENT")
    (hcred : 0 < st.consultation_credits + h.package_credits)
    (hmin : minByCount (st.availability.filter
      (fun c => c.status = "AVAILABLE" ∨ c.status = "ON_CALL")) = some av) :
    activate_subscription st tx =
      finalize_consultation_flow
        { st with
            payments := st.payments.map (fun p =>
              if p.reference = tx then { p with status := "SUCCESS" } else p)
            consultation_credits := st.consultation_credits + h.package_credits } ∧
    (activate_subscription st tx).conv_status = ConvStatus.PENDING_CLINICIAN_REVIEW ∧
    (activate_subscription st tx).is_paid = true ∧
    (activate_subscription st tx).assessment =
      some { a with status := "PENDING_REVIEW" } ∧
    (activate_subscription st tx).assigned_clinician = some av.clinician_id ∧
    (activate_subscription st tx).triage_questions = st.triage_questions ∧
    (activate_subscription st tx).ai_questions_asked = st.ai_questions_asked ∧
    (activate_subscription st tx).gen_assessment_requests =
      st.gen_assessment_requests := by
  have hact : activate_subscription st tx =
      finalize_consultation_flow
        { st with
            payments := st.payments.map (fun p =>
              if p.reference = tx then { p with status := "SUCCESS" } else p)
            consultation_credits := st.consultation_credits + h.package_credits } := by
    unfold activate_subscription
    rw [hfind]
    dsimp only
    rw [if_neg hpend]
    rw [show ({ st with
        payments := st.payments.map (fun p =>
          if p.reference = tx then { p with status := "SUCCESS" } else p)
        consultation_credits :=
          st.consultation_credits + h.package_credits } : PatientState).assessment
      = st.assessment from rfl, hassess]
    dsimp only
    rw [if_pos hstat]
  refine ⟨hact, ?_⟩
  rw [hact]
  unfold finalize_consultation_flow
  rw [if_pos (by dsimp only; omega)]
  dsimp only
  unfold assign_clinician
  dsimp only
  rw [show (st.payments.map (fun p =>
      if p.reference = tx then { p with status := "SUCCESS" } else p) : List PaymentRec)
    = st.payments.map (fun p =>
      if p.reference = tx then { p with status := "SUCCESS" } else p) from rfl]
  rw [hmin]
  dsimp only
  rw [hassess]
  exact ⟨rfl, rfl, rfl, rfl, rfl, rfl, rfl⟩

/-- Witness for C9: confirming `tx1` on the parked state resumes through
the finalize path, assigns clinician 7 and repeats no triage. -/
theorem C9_payment_resumes_via_finalize_witness :
    activate_subscription C9_state "tx1" =
      finalize_consultation_flow
        { C9_state with
            payments := C9_state.payments.map (fun p =>
              if p.reference = "tx1" then { p with status := "SUCCESS" } else p)
            consultation_credits := C9_state.consultation_credits + 3 } ∧
    (activate_subscription C9_state "tx1").conv_status =
      ConvStatus.PENDING_CLINICIAN_REVIEW ∧
    (activate_subscription C9_state "tx1").is_paid = true ∧
    (activate_subscription C9_state "tx1").assessment =
      some { C9_assess_row with status := "PENDING_REVIEW" } ∧
    (activate_subscription C9_state "tx1").assigned_clinician = some 7 ∧
    (activate_subscription C9_state "tx1").triage_questions =
      C9_state.triage_questions ∧
    (activate_subscription C9_state "tx1").ai_questions_asked =
      C9_state.ai_questions_asked ∧
    (activate_subscription C9_state "tx1").gen_assessment_requests =
      C9_state.gen_assessment_requests :=
  C9_payment_resumes_via_finalize C9_state "tx1"
    { reference := "tx1", status := "PENDING", package_credits := 3 }
    C9_assess_row
    { clinician_id := 7, status := "AVAILABLE", current_patient_count := 2 }
    (by decide) (by decide) rfl rfl (by decide) (by decide)
